import Mathlib

/-!
# PAK.sh Web — verification of the authentication, ledger and webhook core

Shallow embedding of the Python source under `web_py/` (Flask blueprints,
SQLAlchemy models, webhook service).  Database tables become lists of
records, `datetime.utcnow()` becomes an explicit `now : Int` (seconds),
randomness (`secrets.token_urlsafe`) becomes explicit token parameters, and
the werkzeug password-hash pair becomes an abstract `checkHash` function
passed in by the caller.  HMAC-SHA256 is implemented concretely, bytes as
`Nat` with masking, so that signatures evaluate on concrete inputs.
-/

namespace PakWeb

/-! ## Bytes and 32-bit words (`Nat` with explicit masking) -/

/-- Truncate to a 32-bit word, the wrap-around of Python/C 32-bit ops. -/
def w32 (n : Nat) : Nat := n % 4294967296

/-- Right rotation of a 32-bit word by `b` bits. -/
def rotr32 (b n : Nat) : Nat := w32 ((n >>> b) ||| (n <<< (32 - b)))

/-- Big-endian byte decomposition, `k` bytes. -/
def toBytesBE (k n : Nat) : List Nat :=
  (List.range k).map (fun i => (n >>> (8 * (k - 1 - i))) &&& 255)

/-! ## SHA-256 (FIPS 180-4), executable over `List Nat` bytes -/

/-- The 64 SHA-256 round constants. -/
def shaK : List Nat :=
  [1116352408, 1899447441, 3049323471, 3921009573, 961987163, 1508970993,
   2453635748, 2870763221, 3624381080, 310598401, 607225278, 1426881987,
   1925078388, 2162078206, 2614888103, 3248222580, 3835390401, 4022224774,
   264347078, 604807628, 770255983, 1249150122, 1555081692, 1996064986,
   2554220882, 2821834349, 2952996808, 3210313671, 3336571891, 3584528711,
   113926993, 338241895, 666307205, 773529912, 1294757372, 1396182291,
   1695183700, 1986661051, 2177026350, 2456956037, 2730485921, 2820302411,
   3259730800, 3345764771, 3516065817, 3600352804, 4094571909, 275423344,
   430227734, 506948616, 659060556, 883997877, 958139571, 1322822218,
   1537002063, 1747873779, 1955562222, 2024104815, 2227730452, 2361852424,
   2428436474, 2756734187, 3204031479, 3329325298]

/-- Initial SHA-256 state. -/
def shaH0 : List Nat :=
  [1779033703, 3144134277, 1013904242, 2773480762,
   1359893119, 2600822924, 528734635, 1541459225]

/-- Pad a byte message to a multiple of 64 bytes with 0x80, zeros and the
64-bit big-endian bit length. -/
def shaPad (msg : List Nat) : List Nat :=
  let len := msg.length
  let padZeros := (119 - len % 64) % 64
  msg ++ 0x80 :: List.replicate padZeros 0 ++ toBytesBE 8 (len * 8)

/-- Group bytes into big-endian 32-bit words. -/
def bytesToWords : List Nat → List Nat
  | a :: b :: c :: d :: rest =>
      ((a <<< 24) ||| (b <<< 16) ||| (c <<< 8) ||| d) :: bytesToWords rest
  | _ => []

/-- Split a word list into 16-word blocks. -/
def wordBlocks : List Nat → List (List Nat)
  | w0 :: w1 :: w2 :: w3 :: w4 :: w5 :: w6 :: w7 ::
    w8 :: w9 :: w10 :: w11 :: w12 :: w13 :: w14 :: w15 :: rest =>
      [w0, w1, w2, w3, w4, w5, w6, w7, w8, w9, w10, w11, w12, w13, w14, w15]
        :: wordBlocks rest
  | _ => []

/-- One message-schedule extension step: append `W[i]` for `i = w.length`. -/
def schedStep (w : List Nat) : List Nat :=
  let i := w.length
  let x15 := w.getD (i - 15) 0
  let x2 := w.getD (i - 2) 0
  let s0 := (rotr32 7 x15) ^^^ (rotr32 18 x15) ^^^ (x15 >>> 3)
  let s1 := (rotr32 17 x2) ^^^ (rotr32 19 x2) ^^^ (x2 >>> 10)
  w ++ [w32 (w.getD (i - 16) 0 + s0 + w.getD (i - 7) 0 + s1)]

/-- The full 64-word message schedule of one block. -/
def schedule (block : List Nat) : List Nat :=
  (List.range 48).foldl (fun w _ => schedStep w) block

/-- One compression round on state `[a,b,c,d,e,f,g,h]`. -/
def shaRound (st : List Nat) (k wi : Nat) : List Nat :=
  let a := st.getD 0 0
  let b := st.getD 1 0
  let c := st.getD 2 0
  let d := st.getD 3 0
  let e := st.getD 4 0
  let f := st.getD 5 0
  let g := st.getD 6 0
  let h := st.getD 7 0
  let s1 := (rotr32 6 e) ^^^ (rotr32 11 e) ^^^ (rotr32 25 e)
  let ch := (e &&& f) ^^^ ((0xffffffff ^^^ e) &&& g)
  let t1 := w32 (h + s1 + ch + k + wi)
  let s0 := (rotr32 2 a) ^^^ (rotr32 13 a) ^^^ (rotr32 22 a)
  let maj := (a &&& b) ^^^ (a &&& c) ^^^ (b &&& c)
  let t2 := w32 (s0 + maj)
  [w32 (t1 + t2), a, b, c, w32 (d + t1), e, f, g]

/-- Compress one 16-word block into the running hash state. -/
def shaCompress (h : List Nat) (block : List Nat) : List Nat :=
  let w := schedule block
  let st := (List.range 64).foldl (fun st t => shaRound st (shaK.getD t 0) (w.getD t 0)) h
  (List.range 8).map (fun i => w32 (h.getD i 0 + st.getD i 0))

/-- SHA-256 of a byte list, as the 32 digest bytes. -/
def sha256 (msg : List Nat) : List Nat :=
  let final := (wordBlocks (bytesToWords (shaPad msg))).foldl shaCompress shaH0
  final.foldr (fun h acc => toBytesBE 4 h ++ acc) []

/-! ## HMAC-SHA256 (RFC 2104), as Python `hmac.new(key, msg, sha256)` -/

/-- HMAC-SHA256 digest bytes. -/
def hmacSha256 (key msg : List Nat) : List Nat :=
  let k0 := if key.length > 64 then sha256 key else key
  let k := k0 ++ List.replicate (64 - k0.length) 0
  sha256 ((k.map (· ^^^ 0x5c)) ++ sha256 ((k.map (· ^^^ 0x36)) ++ msg))

/-- Lowercase hex digit. -/
def hexDigit (n : Nat) : Char :=
  if n < 10 then Char.ofNat (48 + n) else Char.ofNat (87 + n)

/-- Lowercase hex encoding of digest bytes, as Python `.hexdigest()`. -/
def bytesToHex (bs : List Nat) : String :=
  String.mk (bs.foldr (fun b acc => hexDigit (b / 16) :: hexDigit (b % 16) :: acc) [])

/-- UTF-8 encoding of one code point. -/
def utf8Char (n : Nat) : List Nat :=
  if n < 0x80 then [n]
  else if n < 0x800 then [0xc0 ||| (n >>> 6), 0x80 ||| (n &&& 63)]
  else if n < 0x10000 then
    [0xe0 ||| (n >>> 12), 0x80 ||| ((n >>> 6) &&& 63), 0x80 ||| (n &&& 63)]
  else
    [0xf0 ||| (n >>> 18), 0x80 ||| ((n >>> 12) &&& 63),
     0x80 ||| ((n >>> 6) &&& 63), 0x80 ||| (n &&& 63)]

/-- UTF-8 bytes of a string, as Python `str.encode("utf-8")`. -/
def utf8Bytes (s : String) : List Nat :=
  s.data.foldr (fun c acc => utf8Char c.toNat ++ acc) []

/-! ## Python JSON values and `json.dumps(..., sort_keys=True)`

The webhook payloads the service serializes are built from dicts, lists,
strings, ints, bools and None; floats never reach `_generate_signature`
(the envelope timestamp is not part of the signed payload), so the model
carries ints.  `dumps` reproduces CPython defaults: separators
`", "` / `": "`, `ensure_ascii=True`, keys sorted by code point. -/

inductive PyJson where
  | null : PyJson
  | bool : Bool → PyJson
  | int : Int → PyJson
  | str : String → PyJson
  | arr : List PyJson → PyJson
  | obj : List (String × PyJson) → PyJson

/-- Four lowercase hex digits, the tail of a `\uXXXX` escape. -/
def u4 (n : Nat) : List Char :=
  ['\\', 'u', hexDigit (n / 4096 % 16), hexDigit (n / 256 % 16),
   hexDigit (n / 16 % 16), hexDigit (n % 16)]

/-- JSON string escape of one char, as CPython with `ensure_ascii=True`:
everything outside `0x20..0x7e` is `\uXXXX`-escaped (surrogate pairs above
the BMP), plus the usual short escapes. -/
def escChar (c : Char) : List Char :=
  let n := c.toNat
  if c = '"' then ['\\', '"']
  else if c = '\\' then ['\\', '\\']
  else if c = '\n' then ['\\', 'n']
  else if c = '\r' then ['\\', 'r']
  else if c = '\t' then ['\\', 't']
  else if n = 8 then ['\\', 'b']
  else if n = 12 then ['\\', 'f']
  else if n < 0x20 then u4 n
  else if n < 0x7f then [c]
  else if n < 0x10000 then u4 n
  else u4 (0xd800 + (n - 0x10000) / 0x400) ++ u4 (0xdc00 + (n - 0x10000) % 0x400)

/-- A JSON string literal including the surrounding quotes. -/
def jsonStr (s : String) : String :=
  "\"" ++ String.mk (s.data.foldr (fun c acc => escChar c ++ acc) []) ++ "\""

/-- Python `str` of an int (`repr` used by `json.dumps`). -/
def intStr : Int → String
  | Int.ofNat n => toString n
  | Int.negSucc n => "-" ++ toString (n + 1)

/-- Insert a serialized item keeping ascending key order. -/
def insertKV (p : String × String) : List (String × String) → List (String × String)
  | [] => [p]
  | q :: rest => if p.1 < q.1 then p :: q :: rest else q :: insertKV p rest

/-- Sort serialized dict items by key, the effect of `sort_keys=True`
(serializing a value and sorting by key commute, so sorting after
serialization reproduces CPython's output). -/
def sortKVs (kvs : List (String × String)) : List (String × String) :=
  kvs.foldr insertKV []

/-- Join sorted serialized dict items with the default separators. -/
def joinObj : List (String × String) → String
  | [] => ""
  | [(k, v)] => jsonStr k ++ ": " ++ v
  | (k, v) :: rest => jsonStr k ++ ": " ++ v ++ ", " ++ joinObj rest

mutual

/-- `json.dumps(v, sort_keys=True)` with CPython default separators. -/
def dumps : PyJson → String
  | .null => "null"
  | .bool true => "true"
  | .bool false => "false"
  | .int n => intStr n
  | .str s => jsonStr s
  | .arr xs => "[" ++ dumpsArr xs ++ "]"
  | .obj kvs => "\x7b" ++ joinObj (sortKVs (dumpsKVs kvs)) ++ "\x7d"

/-- Comma-joined serialization of array elements. -/
def dumpsArr : List PyJson → String
  | [] => ""
  | [x] => dumps x
  | x :: rest => dumps x ++ ", " ++ dumpsArr rest

/-- Serialize each dict value, keeping the key. -/
def dumpsKVs : List (String × PyJson) → List (String × String)
  | [] => []
  | (k, v) :: rest => (k, dumps v) :: dumpsKVs rest

end

/-- Dict lookup, Python `dict.get`. -/
def lookupKey : List (String × PyJson) → String → Option PyJson
  | [], _ => none
  | (k, v) :: rest, key => if k = key then some v else lookupKey rest key

/-! ## Webhook service (`services/webhook_service.py`)

The database is a record of lists; rows carry the autoincrement ids the ORM
gives them.  `datetime.utcnow()` / `time.time()` become a `now : Int`
parameter; the HTTP POST becomes `respond : String → PyJson → HttpOutcome`,
a function of the target url and posted body (`.err` collapses the
`Timeout` / `ConnectionError` / generic-exception handlers, which share the
`_handle_delivery_error` bookkeeping and differ only in the recorded error
string).  Wall-clock delivery duration is an external measurement and is not
modelled. -/

/-- Outcome of the HTTP POST to a webhook target. -/
inductive HttpOutcome where
  | ok : Nat → String → HttpOutcome
  | err : String → HttpOutcome
  deriving DecidableEq, Repr

/-- `models.Webhook` row. -/
structure Webhook where
  id : Nat
  user_id : Nat := 0
  name : String := ""
  url : String := ""
  secret : Option String := none
  events : List String := []
  is_active : Bool := true
  timeout : Nat := 30
  success_count : Nat := 0
  failure_count : Nat := 0
  last_triggered : Option Int := none
  deriving DecidableEq, Repr

/-- `models.WebhookDelivery` row. -/
structure WebhookDelivery where
  id : Nat
  webhook_id : Nat
  event : String
  payload : PyJson := .null
  status_code : Option Nat := none
  response_body : String := ""
  retry_count : Nat := 0

/-- The webhook tables. `nextDeliveryId` is the autoincrement counter. -/
structure WebhookDB where
  webhooks : List Webhook
  deliveries : List WebhookDelivery
  nextDeliveryId : Nat

/-- Python truthiness of the nullable `secret` column. -/
def secretTruthy : Option String → Bool
  | none => false
  | some s => !(s = "")

/-- `WebhookService._generate_signature(secret, payload)`:
`sha256=` + hex HMAC-SHA256 of `json.dumps(payload, sort_keys=True)`. -/
def generateSignature (secret : String) (payload : PyJson) : String :=
  "sha256=" ++ bytesToHex (hmacSha256 (utf8Bytes secret) (utf8Bytes (dumps payload)))

/-- The headers `deliver_to_webhook` attaches; the signature is added only
when the webhook has a (truthy) secret, and is computed over the payload
alone, not the request envelope. -/
def webhookHeaders (now : Int) (wh : Webhook) (eventType : String) (payload : PyJson) :
    List (String × String) :=
  let base := [("Content-Type", "application/json"),
               ("User-Agent", "PAK.sh-Webhook/1.0"),
               ("X-Webhook-Event", eventType),
               ("X-Webhook-ID", toString wh.id),
               ("X-Webhook-Timestamp", intStr now)]
  if secretTruthy wh.secret then
    base ++ [("X-Webhook-Signature", generateSignature (wh.secret.getD "") payload)]
  else base

/-- The posted `request_data` envelope. -/
def requestData (now : Int) (eventType : String) (payload : PyJson) : PyJson :=
  .obj [("event", .str eventType), ("timestamp", .int now), ("data", payload)]

/-- `200 <= status_code < 300`, the sole success criterion. -/
def is2xx (c : Nat) : Bool := decide (200 ≤ c ∧ c < 300)

/-- Result dict of `deliver_to_webhook` (the fields the claims read). -/
structure DeliveryResult where
  success : Bool
  status_code : Option Nat := none
  error : Option String := none
  deriving DecidableEq, Repr

/-- `WebhookService.deliver_to_webhook`: POST the envelope, append one
delivery row recording the outcome, update the webhook's counters and
`last_triggered`.  The `.err` branch is `_handle_delivery_error`. -/
def deliverToWebhook (now : Int) (respond : String → PyJson → HttpOutcome)
    (st : WebhookDB) (wh : Webhook) (eventType : String) (payload : PyJson) :
    WebhookDB × DeliveryResult :=
  let body := requestData now eventType payload
  match respond wh.url body with
  | .ok status text =>
      let delivery : WebhookDelivery :=
        { id := st.nextDeliveryId, webhook_id := wh.id, event := eventType,
          payload := body, status_code := some status,
          response_body := text.take 1000, retry_count := 0 }
      let webhooks := st.webhooks.map (fun w =>
        if w.id = wh.id then
          { w with last_triggered := some now,
                   success_count := if is2xx status then w.success_count + 1 else w.success_count,
                   failure_count := if is2xx status then w.failure_count else w.failure_count + 1 }
        else w)
      (⟨webhooks, st.deliveries ++ [delivery], st.nextDeliveryId + 1⟩,
       { success := is2xx status, status_code := some status })
  | .err msg =>
      let delivery : WebhookDelivery :=
        { id := st.nextDeliveryId, webhook_id := wh.id, event := eventType,
          payload := .obj [("event", .str eventType), ("data", payload)],
          status_code := none, response_body := msg, retry_count := 0 }
      let webhooks := st.webhooks.map (fun w =>
        if w.id = wh.id then
          { w with last_triggered := some now, failure_count := w.failure_count + 1 }
        else w)
      (⟨webhooks, st.deliveries ++ [delivery], st.nextDeliveryId + 1⟩,
       { success := false, error := some msg })

/-- The active webhooks subscribed to an event, the `deliver_event` query. -/
def matchingWebhooks (st : WebhookDB) (eventType : String) : List Webhook :=
  st.webhooks.filter (fun w => w.is_active && w.events.contains eventType)

/-- The fan-out loop of `deliver_event`, returning the state and the
(successful, failed) tallies. -/
def deliverLoop (now : Int) (respond : String → PyJson → HttpOutcome)
    (eventType : String) (payload : PyJson) :
    List Webhook → WebhookDB → WebhookDB × Nat × Nat
  | [], st => (st, 0, 0)
  | wh :: rest, st =>
      let p := deliverToWebhook now respond st wh eventType payload
      let r := deliverLoop now respond eventType payload rest p.1
      (r.1, (if p.2.success then r.2.1 + 1 else r.2.1),
            (if p.2.success then r.2.2 else r.2.2 + 1))

/-- Report dict of `deliver_event` (the fields the claims read). -/
structure DeliveryReport where
  success : Bool
  deliveries : Nat := 0
  successful : Nat := 0
  failed : Nat := 0
  deriving DecidableEq, Repr

/-- `WebhookService.deliver_event`: fan out to every matching webhook; no
match is a success with zero deliveries. -/
def deliverEvent (now : Int) (respond : String → PyJson → HttpOutcome)
    (st : WebhookDB) (eventType : String) (payload : PyJson) :
    WebhookDB × DeliveryReport :=
  let whs := matchingWebhooks st eventType
  if whs.isEmpty then
    (st, { success := true, deliveries := 0 })
  else
    let r := deliverLoop now respond eventType payload whs st
    (r.1, { success := true, deliveries := whs.length,
            successful := r.2.1, failed := r.2.2 })

/-- `delivery.payload.get("data", {}) if delivery.payload else {}`. -/
def payloadData : PyJson → PyJson
  | .obj kvs => (lookupKey kvs "data").getD (.obj [])
  | _ => .obj []

/-- The in-place retry bookkeeping on the original delivery row. -/
def bumpRetry (ok : Bool) (d : WebhookDelivery) : WebhookDelivery :=
  if ok then { d with retry_count := d.retry_count + 1, status_code := some 200 }
  else { d with retry_count := d.retry_count + 1 }

/-- Replace the delivery row with id `i` by `f` of it. -/
def updateDeliveryRow (st : WebhookDB) (i : Nat) (f : WebhookDelivery → WebhookDelivery) :
    WebhookDB :=
  { st with deliveries := st.deliveries.map (fun d => if d.id = i then f d else d) }

/-- Selection predicate of `retry_failed_deliveries`: no recorded status
code and `retry_count < max_retries`. -/
def eligibleRetry (maxRetries : Nat) (d : WebhookDelivery) : Bool :=
  d.status_code.isNone && decide (d.retry_count < maxRetries)

/-- The retry loop: re-resolve the webhook (skip if gone or inactive),
re-attempt through `deliverToWebhook`, then mutate the original row. -/
def retryLoop (now : Int) (respond : String → PyJson → HttpOutcome) :
    List WebhookDelivery → WebhookDB → WebhookDB × Nat × Nat
  | [], st => (st, 0, 0)
  | d :: rest, st =>
      match st.webhooks.find? (fun w => w.id = d.webhook_id) with
      | none => retryLoop now respond rest st
      | some wh =>
          if !wh.is_active then retryLoop now respond rest st
          else
            let p := deliverToWebhook now respond st wh d.event (payloadData d.payload)
            let st2 := updateDeliveryRow p.1 d.id (bumpRetry p.2.success)
            let r := retryLoop now respond rest st2
            (r.1, (if p.2.success then r.2.1 + 1 else r.2.1),
                  (if p.2.success then r.2.2 else r.2.2 + 1))

/-- Report dict of `retry_failed_deliveries`. -/
structure RetryReport where
  success : Bool
  retried : Nat := 0
  successful : Nat := 0
  failed : Nat := 0
  deriving DecidableEq, Repr

/-- `WebhookService.retry_failed_deliveries`. -/
def retryFailedDeliveries (now : Int) (respond : String → PyJson → HttpOutcome)
    (st : WebhookDB) (maxRetries : Nat) : WebhookDB × RetryReport :=
  let failedDs := st.deliveries.filter (eligibleRetry maxRetries)
  if failedDs.isEmpty then
    (st, { success := true, retried := 0 })
  else
    let r := retryLoop now respond failedDs st
    (r.1, { success := true, retried := failedDs.length,
            successful := r.2.1, failed := r.2.2 })

/-! ## Credential store and authenticator (`models.py`, `blueprints/auth.py`,
`app.py` `PakHerd`)

`datetime.utcnow()` is `now : Int` (seconds); `werkzeug`'s
`check_password_hash(hash, password)` is an abstract `checkHash` parameter;
`secrets.token_urlsafe(32)` values are explicit token parameters.  Flask
form fields that can be absent are modelled as strings where the empty
string is falsy, matching `request.form.get` + `if not x:`. -/

/-- `models.User` row (the columns the authentication flows touch). -/
structure User where
  id : Nat
  email : String
  password_hash : String := ""
  name : String := ""
  role : String := "user"
  is_active : Bool := true
  failed_attempts : Nat := 0
  locked_until : Option Int := none
  last_login : Option Int := none
  api_key : Option String := none
  api_key_created : Option Int := none
  deriving DecidableEq, Repr

/-- `models.LoginAttempt` row. -/
structure LoginAttempt where
  email : String
  success : Bool
  failure_reason : Option String := none
  deriving DecidableEq, Repr

/-- `models.UserSession` row. -/
structure UserSession where
  user_id : Nat
  session_id : String
  expires_at : Int
  is_active : Bool := true
  deriving DecidableEq, Repr

/-- `models.PasswordReset` row. -/
structure PasswordReset where
  user_id : Nat
  token : String
  expires_at : Int
  used : Bool := false
  deriving DecidableEq, Repr

/-- The authentication tables. -/
structure AuthDB where
  users : List User
  attempts : List LoginAttempt
  sessions : List UserSession
  resets : List PasswordReset
  deriving DecidableEq, Repr

/-- `User.is_locked`: `locked_until and locked_until > utcnow()`. -/
def isLocked (now : Int) (u : User) : Bool :=
  match u.locked_until with
  | some t => decide (t > now)
  | none => false

/-- `User.record_failed_login`: increment `failed_attempts`; at five or
more, lock for 30 minutes. -/
def recordFailedLogin (now : Int) (u : User) : User :=
  let fa := u.failed_attempts + 1
  { u with failed_attempts := fa,
           locked_until := if fa ≥ 5 then some (now + 30 * 60) else u.locked_until }

/-- `User.reset_failed_attempts`. -/
def resetFailedAttempts (u : User) : User :=
  { u with failed_attempts := 0, locked_until := none }

/-- `User.query.filter_by(email=email).first()`. -/
def findUser (db : AuthDB) (email : String) : Option User :=
  db.users.find? (fun u => u.email = email)

/-- Replace the user row with id `i` by `f` of it. -/
def updateUser (db : AuthDB) (i : Nat) (f : User → User) : AuthDB :=
  { db with users := db.users.map (fun u => if u.id = i then f u else u) }

/-- The outcome a login call surfaces (the flashed message / return dict). -/
inductive LoginOutcome where
  | missingInput : LoginOutcome
  | invalidCredentials : LoginOutcome
  | accountLocked : LoginOutcome
  | accountDisabled : LoginOutcome
  | loggedIn : String → LoginOutcome
  deriving DecidableEq, Repr

/-- `blueprints/auth.py login` (POST): password is verified *before* the
lock check; a failed verification records the penalty and audit row even
when the account is locked. -/
def authLogin (checkHash : String → String → Bool) (now : Int)
    (sessionTok : String) (db : AuthDB) (email password : String)
    (remember : Bool) : AuthDB × LoginOutcome :=
  if email = "" ∨ password = "" then (db, .missingInput)
  else
    match findUser db email with
    | none =>
        ({ db with attempts := db.attempts ++
            [{ email := email, success := false,
               failure_reason := some "Invalid credentials" }] },
         .invalidCredentials)
    | some user =>
      if !(checkHash user.password_hash password) then
        let db1 := updateUser db user.id (recordFailedLogin now)
        ({ db1 with attempts := db1.attempts ++
            [{ email := email, success := false,
               failure_reason := some "Invalid credentials" }] },
         .invalidCredentials)
      else if isLocked now user then (db, .accountLocked)
      else if !user.is_active then (db, .accountDisabled)
      else
        let db1 := updateUser db user.id
          (fun u => { resetFailedAttempts u with last_login := some now })
        let db2 := { db1 with attempts := db1.attempts ++
          [({ email := email, success := true } : LoginAttempt)] }
        let expires := now + (if remember then 7 else 1) * 86400
        let db3 := { db2 with sessions := db2.sessions ++
          [({ user_id := user.id, session_id := sessionTok,
              expires_at := expires } : UserSession)] }
        (db3, .loggedIn sessionTok)

/-- `PakHerd.login` (`app.py`): lock is checked first and short-circuits
with no state change; the failure branch locks for 15 minutes (not 30); a
match never checks `is_active`. -/
def pakLogin (checkHash : String → String → Bool) (now : Int)
    (sessionTok : String) (db : AuthDB) (email password : String)
    (remember : Bool) : AuthDB × LoginOutcome :=
  let user? := findUser db email
  match user? with
  | some user =>
    if isLocked now user then (db, .accountLocked)
    else if checkHash user.password_hash password then
      let db1 := updateUser db user.id
        (fun u => { u with failed_attempts := 0, locked_until := none,
                           last_login := some now })
      let expires := now + (if remember then 30 else 1) * 86400
      let db2 := { db1 with sessions := db1.sessions ++
        [({ user_id := user.id, session_id := sessionTok,
            expires_at := expires } : UserSession)] }
      let db3 := { db2 with attempts := db2.attempts ++
        [({ email := email, success := true } : LoginAttempt)] }
      (db3, .loggedIn sessionTok)
    else
      let db1 := updateUser db user.id (fun u =>
        let fa := u.failed_attempts + 1
        { u with failed_attempts := fa,
                 locked_until := if fa ≥ 5 then some (now + 15 * 60) else u.locked_until })
      let db2 := { db1 with attempts := db1.attempts ++
        [{ email := email, success := false }] }
      (db2, .invalidCredentials)
  | none =>
      let db1 := { db with attempts := db.attempts ++
        [{ email := email, success := false }] }
      (db1, .invalidCredentials)

/-- The generic anti-enumeration flash of `forgot_password`. -/
def genericResetFlash : String :=
  "If an account with that email exists, a password reset link has been sent"

/-- What `blueprints/auth.py forgot_password` (POST) surfaces: the flashed
messages and whether it redirected to the login page (as opposed to
re-rendering the form on missing email). -/
structure ForgotResult where
  db : AuthDB
  flashes : List String
  redirectedToLogin : Bool
  deriving DecidableEq, Repr

/-- `blueprints/auth.py forgot_password` (POST): for an existing active
user, delete **all** prior reset rows for that user and create a 24-hour
token (flashing the raw token — a development stub); always flash the
generic message and redirect. -/
def forgotPassword (now : Int) (tok : String) (db : AuthDB) (email : String) :
    ForgotResult :=
  if email = "" then
    { db := db, flashes := ["Email is required"], redirectedToLogin := false }
  else
    match findUser db email with
    | some user =>
      if user.is_active then
        let resets1 := db.resets.filter (fun r => !(r.user_id = user.id))
        let db1 := { db with resets := resets1 ++
          [{ user_id := user.id, token := tok, expires_at := now + 24 * 3600 }] }
        { db := db1,
          flashes := ["Password reset token: " ++ tok, genericResetFlash],
          redirectedToLogin := true }
      else
        { db := db, flashes := [genericResetFlash], redirectedToLogin := true }
    | none =>
        { db := db, flashes := [genericResetFlash], redirectedToLogin := true }

/-- Return dict of `PakHerd.request_password_reset`. -/
structure PakResetResult where
  db : AuthDB
  success : Bool
  message : String
  token : Option String := none
  deriving DecidableEq, Repr

/-- `PakHerd.request_password_reset` (`app.py`): an unknown email returns a
failure (`"User not found"`); otherwise the existing unused reset row is
updated in place, or a fresh one appended. -/
def pakRequestPasswordReset (now : Int) (tok : String) (db : AuthDB)
    (email : String) : PakResetResult :=
  match findUser db email with
  | none => { db := db, success := false, message := "User not found" }
  | some user =>
    let expires := now + 24 * 3600
    let resets1 :=
      match db.resets.find? (fun r => r.user_id = user.id && !r.used) with
      | some r0 =>
          db.resets.map (fun r =>
            if r = r0 then { r with token := tok, expires_at := expires } else r)
      | none =>
          db.resets ++ [{ user_id := user.id, token := tok, expires_at := expires }]
    { db := { db with resets := resets1 }, success := true,
      message := "Password reset instructions sent", token := some tok }

/-- Python truthiness of the nullable `api_key` column. -/
def apiKeyFalsy : Option String → Bool
  | none => true
  | some s => s = ""

/-- Constructor keyword arguments of `User(**kwargs)` that the flows use. -/
structure UserInit where
  id : Nat := 0
  email : String
  name : String := ""
  password_hash : String := ""
  role : String := "user"
  api_key : Option String := none
  api_key_created : Option Int := none
  deriving DecidableEq, Repr

/-- `User.__init__`: after the column assignments, a falsy `api_key` is
replaced by `generate_api_key()` — a fresh URL-safe token (the `tok`
parameter) and `api_key_created = utcnow()`. -/
def mkUser (now : Int) (tok : String) (init : UserInit) : User :=
  let u : User :=
    { id := init.id, email := init.email, name := init.name,
      password_hash := init.password_hash, role := init.role,
      api_key := init.api_key, api_key_created := init.api_key_created }
  if apiKeyFalsy u.api_key then
    { u with api_key := some tok, api_key_created := some now }
  else u

/-- Outcome of the registration route. -/
inductive RegisterOutcome where
  | missingFields : RegisterOutcome
  | passwordMismatch : RegisterOutcome
  | passwordTooShort : RegisterOutcome
  | emailTaken : RegisterOutcome
  | registered : RegisterOutcome
  deriving DecidableEq, Repr

/-- `blueprints/auth.py register` (POST): validations, then
`User(email=..., name=...)` (no `api_key` keyword) plus `set_password`,
with `hashPw` standing for `generate_password_hash`. -/
def register (hashPw : String → String) (now : Int) (tok : String)
    (newId : Nat) (db : AuthDB) (email password confirm name : String) :
    AuthDB × RegisterOutcome :=
  if email = "" ∨ password = "" ∨ confirm = "" ∨ name = "" then
    (db, .missingFields)
  else if password ≠ confirm then (db, .passwordMismatch)
  else if password.length < 8 then (db, .passwordTooShort)
  else if (findUser db email).isSome then (db, .emailTaken)
  else
    let user := mkUser now tok { id := newId, email := email, name := name }
    let user := { user with password_hash := hashPw password }
    ({ db with users := db.users ++ [user] }, .registered)

/-! ## Project/deployment ledger (`models.py` event listeners)

`success_rate` is a Python float; the model uses exact rationals, which
agree with the float computation on the divisions the claims evaluate up to
float rounding, and make the `200/3` law exact.  Datetimes are `Int`
seconds, so `int((completed_at - started_at).total_seconds())` is plain
subtraction. -/

/-- `models.PakDeployment` row (the columns the listeners touch). -/
structure PakDeployment where
  id : Nat
  project_id : Nat
  status : String := "pending"
  started_at : Option Int := none
  completed_at : Option Int := none
  duration : Option Int := none
  created_at : Int := 0
  deriving DecidableEq, Repr

/-- `models.PakProject` row (the derived-statistics columns). -/
structure PakProject where
  id : Nat
  deployment_count : Nat := 0
  last_deployment : Option Int := none
  success_rate : Rat := 0
  deriving DecidableEq, Repr

/-- The ledger tables. -/
structure Ledger where
  projects : List PakProject
  deployments : List PakDeployment
  deriving DecidableEq, Repr

/-- `PakDeployment.is_completed`. -/
def isCompleted (d : PakDeployment) : Bool :=
  d.status = "success" || d.status = "failed" || d.status = "cancelled"

/-- Python truthiness of `deployment.duration` (`None` and `0` are falsy). -/
def durationFalsy (d : PakDeployment) : Bool :=
  match d.duration with
  | none => true
  | some v => v = 0

/-- `PakDeployment.calculate_duration`: set `duration` from the two
timestamps when both are present. -/
def calculateDuration (d : PakDeployment) : PakDeployment :=
  match d.started_at, d.completed_at with
  | some s, some c => { d with duration := some (c - s) }
  | _, _ => d

/-- The `before_update` listener `update_deployment_stats`: recompute the
duration only for a completed deployment whose stored duration is falsy. -/
def beforeUpdateHook (d : PakDeployment) : PakDeployment :=
  if isCompleted d && durationFalsy d then calculateDuration d else d

/-- Deployments of one project. -/
def projectDeployments (deps : List PakDeployment) (pid : Nat) : List PakDeployment :=
  deps.filter (fun d => d.project_id = pid)

/-- The recomputed success rate over a project's full deployment set:
`100 * successful / total` (defined as 0 when the set is empty). -/
def recomputedSuccessRate (deps : List PakDeployment) (pid : Nat) : Rat :=
  let total := (projectDeployments deps pid).length
  let succ := ((projectDeployments deps pid).filter (fun d => d.status = "success")).length
  if total > 0 then (succ : Rat) / (total : Rat) * 100 else 0

/-- Inserting a deployment row plus the `after_insert` listener
`update_project_stats`: bump `deployment_count`, set `last_deployment` to
the new row's `created_at`, and recompute `success_rate` over the full
(post-insert) deployment set. -/
def insertDeployment (lg : Ledger) (d : PakDeployment) : Ledger :=
  let deps := lg.deployments ++ [d]
  let projects := lg.projects.map (fun p =>
    if p.id = d.project_id then
      let total := (projectDeployments deps p.id).length
      let succ := ((projectDeployments deps p.id).filter
        (fun x => x.status = "success")).length
      { p with deployment_count := p.deployment_count + 1,
               last_deployment := some d.created_at,
               success_rate := if total > 0 then (succ : Rat) / (total : Rat) * 100
                               else p.success_rate }
    else p)
  { projects := projects, deployments := deps }

/-- Persisting an update `f` to the deployment row with id `i`: the
`before_update` listener runs on the changed row; **no** project-statistics
listener fires on update. -/
def updateDeployment (lg : Ledger) (i : Nat) (f : PakDeployment → PakDeployment) :
    Ledger :=
  { lg with deployments := lg.deployments.map (fun d =>
      if d.id = i then beforeUpdateHook (f d) else d) }

/-! ## Claim theorems -/

/-- C10: every `User` constructed without an explicit `api_key` — including
every user created through registration — is assigned the freshly generated
URL-safe key (the `tok` entropy parameter) and an `api_key_created`
timestamp inside the constructor, so `api_key` is non-null from creation. -/
theorem c10_api_key_always_generated :
    (∀ (now : Int) (tok : String) (init : UserInit), init.api_key = none →
      (mkUser now tok init).api_key = some tok ∧
      (mkUser now tok init).api_key_created = some now ∧
      (mkUser now tok init).api_key ≠ none) ∧
    (∀ (hashPw : String → String) (now : Int) (tok : String) (newId : Nat)
       (db : AuthDB) (email password confirm name : String),
      (register hashPw now tok newId db email password confirm name).2 =
        .registered →
      ∃ u : User,
        (register hashPw now tok newId db email password confirm name).1.users =
          db.users ++ [u] ∧ u.api_key = some tok ∧ u.api_key_created = some now) := by
  constructor
  · intro now tok init h
    simp [mkUser, h, apiKeyFalsy]
  · intro hashPw now tok newId db email password confirm name hreg
    by_cases h1 : email = "" ∨ password = "" ∨ confirm = "" ∨ name = ""
    · simp [register, h1] at hreg
    · by_cases h2 : password ≠ confirm
      · simp [register, h1, h2] at hreg
      · by_cases h3 : password.length < 8
        · simp [register, h1, h2, h3] at hreg
        · by_cases h4 : (findUser db email).isSome
          · simp [register, h1, h2, h3, h4] at hreg
          · refine ⟨{ mkUser now tok { id := newId, email := email, name := name } with
                      password_hash := hashPw password }, ?_, ?_, ?_⟩
            · simp [register, h1, h2, h3, h4]
            · simp [mkUser, apiKeyFalsy]
            · simp [mkUser, apiKeyFalsy]

/-- Witness for C10 at a concrete registration. -/
theorem c10_api_key_always_generated_witness :
    ∃ u : User,
      (register (fun p => "h" ++ p) 7 "tok32" 1
        { users := [], attempts := [], sessions := [], resets := [] }
        "a@b.c" "longpass" "longpass" "Ada").1.users = [] ++ [u] ∧
      u.api_key = some "tok32" ∧ u.api_key_created = some 7 :=
  c10_api_key_always_generated.2 (fun p => "h" ++ p) 7 "tok32" 1
    { users := [], attempts := [], sessions := [], resets := [] }
    "a@b.c" "longpass" "longpass" "Ada" (by decide)

/-- C7 counterexample: a deployment persisted with both timestamps set
(difference 10 s) but a caller-supplied duration of 42 keeps the 42 — the
stored duration is *not* recomputed from the timestamps, because the
`before_update` hook only recomputes when the stored duration is falsy. -/
theorem c7_counterexample :
    ((updateDeployment
        { projects := [],
          deployments := [{ id := 1, project_id := 1, status := "success",
                            started_at := some 0, completed_at := some 10,
                            duration := some 42 }] }
        1 (fun d => d)).deployments.map PakDeployment.duration) = [some 42] ∧
    (42 : Int) ≠ 10 - 0 := by decide

/-- C7 amended: on persisting an update, the duration is recomputed from
the two timestamps only when the deployment is in a completed status *and*
the stored duration is falsy (`None`/`0`); when it is recomputed it equals
`completed_at - started_at`; a caller-supplied nonzero duration is kept
verbatim; no duration hook runs outside `before_update`. -/
theorem c7_duration_recomputed_only_when_unset :
    (∀ (d : PakDeployment) (s c : Int), d.started_at = some s →
      d.completed_at = some c → isCompleted d = true → durationFalsy d = true →
      (beforeUpdateHook d).duration = some (c - s)) ∧
    (∀ (d : PakDeployment) (v : Int), d.duration = some v → v ≠ 0 →
      beforeUpdateHook d = d) ∧
    (∀ (lg : Ledger) (i : Nat) (f : PakDeployment → PakDeployment),
      (updateDeployment lg i f).deployments =
        lg.deployments.map (fun d => if d.id = i then beforeUpdateHook (f d) else d)) := by
  refine ⟨?_, ?_, fun lg i f => rfl⟩
  · intro d s c hs hc hcomp hfal
    simp [beforeUpdateHook, hcomp, hfal, calculateDuration, hs, hc]
  · intro d v hv hnz
    have : durationFalsy d = false := by
      simp [durationFalsy, hv]
      intro h
      exact absurd h hnz
    simp [beforeUpdateHook, this]

/-- Witness for C7 (amended) at a concrete completed deployment. -/
theorem c7_duration_recomputed_only_when_unset_witness :
    (beforeUpdateHook ({ id := 1, project_id := 1, status := "success",
                         started_at := some 3,
                         completed_at := some 10 } : PakDeployment)).duration =
      some 7 :=
  c7_duration_recomputed_only_when_unset.1
    { id := 1, project_id := 1, status := "success",
      started_at := some 3, completed_at := some 10 } 3 10 rfl rfl (by decide) (by decide)

/-- C6 counterexample: derived counters are recomputed only on insert, not
on update.  Insert one `pending` deployment (success rate recomputed as 0),
then update its status to `success`: the stored `success_rate` stays 0
while a recomputation over the deployment set gives 100. -/
theorem c6_counterexample :
    ((updateDeployment
        (insertDeployment { projects := [{ id := 1 }], deployments := [] }
          { id := 1, project_id := 1, status := "pending", created_at := 5 })
        1 (fun d => { d with status := "success" })).projects.map
          PakProject.success_rate) = [0] ∧
    recomputedSuccessRate
      (updateDeployment
        (insertDeployment { projects := [{ id := 1 }], deployments := [] }
          { id := 1, project_id := 1, status := "pending", created_at := 5 })
        1 (fun d => { d with status := "success" })).deployments 1 = 100 ∧
    (0 : Rat) ≠ 100 := by
  refine ⟨?_, ?_, by norm_num⟩ <;>
    simp [updateDeployment, insertDeployment, beforeUpdateHook, isCompleted,
      durationFalsy, calculateDuration, projectDeployments, recomputedSuccessRate]

/-- C6 amended: the `after_insert` listener recomputes the derived counters
over the full post-insert deployment set (so they equal a recomputation,
given the count was consistent before), and inserting `[success, failed,
success]` yields `success_rate = 200/3`; deployment *updates* leave the
project counters untouched, so the invariant holds only at inserts. -/
theorem c6_stats_recomputed_on_insert_only :
    (∀ (lg : Ledger) (d : PakDeployment) (p : PakProject), p ∈ lg.projects →
      p.id = d.project_id →
      p.deployment_count = (projectDeployments lg.deployments p.id).length →
      ({ p with
          deployment_count := (projectDeployments (insertDeployment lg d).deployments p.id).length,
          last_deployment := some d.created_at,
          success_rate := recomputedSuccessRate (insertDeployment lg d).deployments p.id }
        : PakProject) ∈ (insertDeployment lg d).projects) ∧
    (∀ (lg : Ledger) (i : Nat) (f : PakDeployment → PakDeployment),
      (updateDeployment lg i f).projects = lg.projects) ∧
    ((insertDeployment (insertDeployment (insertDeployment
        { projects := [{ id := 1 }], deployments := [] }
        { id := 1, project_id := 1, status := "success", created_at := 1 })
        { id := 2, project_id := 1, status := "failed", created_at := 2 })
        { id := 3, project_id := 1, status := "success", created_at := 3 }).projects.map
          PakProject.success_rate) = [200 / 3] := by
  refine ⟨?_, fun lg i f => rfl,
    by simp [insertDeployment, projectDeployments]; norm_num⟩
  intro lg d p hmem hid hcount
  have hd : d ∈ projectDeployments (lg.deployments ++ [d]) p.id := by
    simp [projectDeployments, hid]
  have hpos : (projectDeployments (lg.deployments ++ [d]) p.id).length > 0 :=
    List.length_pos.mpr (fun h => by simp [h] at hd)
  have hdeps : (insertDeployment lg d).deployments = lg.deployments ++ [d] := rfl
  have hsplit : (projectDeployments (lg.deployments ++ [d]) p.id).length =
      (projectDeployments lg.deployments p.id).length + 1 := by
    simp [projectDeployments, List.filter_append, hid]
  have hproj : (insertDeployment lg d).projects = lg.projects.map (fun q =>
      if q.id = d.project_id then
        { q with
            deployment_count := q.deployment_count + 1,
            last_deployment := some d.created_at,
            success_rate :=
              if (projectDeployments (lg.deployments ++ [d]) q.id).length > 0 then
                (((projectDeployments (lg.deployments ++ [d]) q.id).filter
                    (fun x => x.status = "success")).length : Rat) /
                  ((projectDeployments (lg.deployments ++ [d]) q.id).length : Rat) * 100
              else q.success_rate }
      else q) := rfl
  rw [hdeps, hproj]
  refine List.mem_map.mpr ⟨p, hmem, ?_⟩
  rw [if_pos hid]
  simp only [PakProject.mk.injEq, eq_self_iff_true, true_and, and_true]
  constructor
  · rw [hsplit, hcount]
  · rw [if_pos hpos, recomputedSuccessRate]
    simp only [projectDeployments] at hpos ⊢
    rw [if_pos hpos]



/-- Witness for C6 (amended) at a concrete insert into a fresh project. -/
theorem c6_stats_recomputed_on_insert_only_witness :
    ({ ({ id := 1 } : PakProject) with
        deployment_count :=
          (projectDeployments
            (insertDeployment { projects := [{ id := 1 }], deployments := [] }
              { id := 1, project_id := 1, status := "success",
                created_at := 5 }).deployments 1).length,
        last_deployment := some 5,
        success_rate :=
          recomputedSuccessRate
            (insertDeployment { projects := [{ id := 1 }], deployments := [] }
              { id := 1, project_id := 1, status := "success",
                created_at := 5 }).deployments 1 } : PakProject) ∈
      (insertDeployment { projects := [{ id := 1 }], deployments := [] }
        { id := 1, project_id := 1, status := "success",
          created_at := 5 }).projects :=
  c6_stats_recomputed_on_insert_only.1
    { projects := [{ id := 1 }], deployments := [] }
    { id := 1, project_id := 1, status := "success", created_at := 5 }
    { id := 1 } (by simp) rfl rfl

/-- The state C1 is refuted on: one user whose `locked_until` (1000) is
strictly in the future of `now = 0`. -/
def c1db : AuthDB :=
  { users := [{ id := 1, email := "a@b", password_hash := "pw",
                failed_attempts := 2, locked_until := some 1000 }],
    attempts := [], sessions := [], resets := [] }

/-- C1 counterexample: through the blueprint `login`, a *wrong* password
against a locked account is not answered with `AccountLocked` — the
password is checked first, so `failed_attempts` is incremented (2 → 3) and
a failed `LoginAttempt` row is appended, with outcome `InvalidCredentials`. -/
theorem c1_counterexample :
    isLocked 0 ({ id := 1, email := "a@b", password_hash := "pw",
                  failed_attempts := 2, locked_until := some 1000 } : User) = true ∧
    (authLogin (fun h p => h == p) 0 "t" c1db "a@b" "bad" false).2 ≠
      LoginOutcome.accountLocked ∧
    (authLogin (fun h p => h == p) 0 "t" c1db "a@b" "bad" false).2 =
      LoginOutcome.invalidCredentials ∧
    (authLogin (fun h p => h == p) 0 "t" c1db "a@b" "bad" false).1.users.map
      User.failed_attempts = [3] ∧
    (authLogin (fun h p => h == p) 0 "t" c1db "a@b" "bad" false).1.attempts.length
      = 1 := by decide

/-- C1 amended: `PakHerd.login` rejects a locked account with
`AccountLocked` and no state change regardless of the password; the
blueprint `login` does so only when the password verifies — with a wrong
password it instead increments `failed_attempts` and appends a failed
attempt row, returning `InvalidCredentials`. -/
theorem c1_locked_account_rejection :
    (∀ (checkHash : String → String → Bool) (now : Int) (tok : String)
       (db : AuthDB) (email password : String) (remember : Bool)
       (user : User) (t : Int),
      findUser db email = some user → user.locked_until = some t → t > now →
      pakLogin checkHash now tok db email password remember =
        (db, LoginOutcome.accountLocked)) ∧
    (∀ (checkHash : String → String → Bool) (now : Int) (tok : String)
       (db : AuthDB) (email password : String) (remember : Bool)
       (user : User) (t : Int),
      email ≠ "" → password ≠ "" →
      findUser db email = some user → user.locked_until = some t → t > now →
      checkHash user.password_hash password = true →
      authLogin checkHash now tok db email password remember =
        (db, LoginOutcome.accountLocked)) ∧
    (∀ (checkHash : String → String → Bool) (now : Int) (tok : String)
       (db : AuthDB) (email password : String) (remember : Bool) (user : User),
      email ≠ "" → password ≠ "" →
      findUser db email = some user →
      checkHash user.password_hash password = false →
      (authLogin checkHash now tok db email password remember).2 =
        LoginOutcome.invalidCredentials ∧
      (authLogin checkHash now tok db email password remember).1.users =
        db.users.map (fun u => if u.id = user.id then recordFailedLogin now u else u) ∧
      (authLogin checkHash now tok db email password remember).1.attempts =
        db.attempts ++ [{ email := email, success := false,
                          failure_reason := some "Invalid credentials" }]) := by
  refine ⟨?_, ?_, ?_⟩
  · intro checkHash now tok db email password remember user t hfind hlock ht
    have hl : isLocked now user = true := by simp [isLocked, hlock, ht]
    simp [pakLogin, hfind, hl]
  · intro checkHash now tok db email password remember user t he hp hfind hlock ht hchk
    have hl : isLocked now user = true := by simp [isLocked, hlock, ht]
    simp [authLogin, he, hp, hfind, hchk, hl]
  · intro checkHash now tok db email password remember user he hp hfind hchk
    refine ⟨?_, ?_, ?_⟩ <;> simp [authLogin, he, hp, hfind, hchk, updateUser]

/-- Witness for C1 (amended): a locked user, correct password, both entry
points answer `AccountLocked` with the database unchanged. -/
theorem c1_locked_account_rejection_witness :
    pakLogin (fun h p => h == p) 0 "t" c1db "a@b" "pw" false =
      (c1db, LoginOutcome.accountLocked) ∧
    authLogin (fun h p => h == p) 0 "t" c1db "a@b" "pw" false =
      (c1db, LoginOutcome.accountLocked) :=
  ⟨c1_locked_account_rejection.1 (fun h p => h == p) 0 "t" c1db "a@b" "pw" false
     { id := 1, email := "a@b", password_hash := "pw",
       failed_attempts := 2, locked_until := some 1000 } 1000
     (by decide) (by decide) (by decide),
   c1_locked_account_rejection.2.1 (fun h p => h == p) 0 "t" c1db "a@b" "pw" false
     { id := 1, email := "a@b", password_hash := "pw",
       failed_attempts := 2, locked_until := some 1000 } 1000
     (by decide) (by decide) (by decide) (by decide) (by decide) (by decide)⟩

/-- The state C2 is refuted on: a user at 4 failed attempts, not locked. -/
def c2db : AuthDB :=
  { users := [{ id := 1, email := "a@b", password_hash := "pw",
                failed_attempts := 4 }],
    attempts := [], sessions := [], resets := [] }

/-- C2 counterexample: through `PakHerd.login`, the fifth consecutive
failure locks the account until `now + 15 * 60`, not the claimed
`now + 30 * 60`. -/
theorem c2_counterexample :
    (pakLogin (fun h p => h == p) 0 "t" c2db "a@b" "bad" false).1.users.map
      User.locked_until = [some (15 * 60)] ∧
    some ((15 : Int) * 60) ≠ some ((30 : Int) * 60) := by decide

/-- C2 amended: a failed verification for an existing, unlocked user
increments `failed_attempts` by one, appends a failed `LoginAttempt`, and
returns `InvalidCredentials` in both entry points; on reaching five
failures the blueprint (via `User.record_failed_login`) locks for 30
minutes while `PakHerd.login` locks for 15. -/
theorem c2_failed_login_bookkeeping :
    ∀ (checkHash : String → String → Bool) (now : Int) (tok : String)
      (db : AuthDB) (email password : String) (remember : Bool) (user : User),
      email ≠ "" → password ≠ "" →
      findUser db email = some user →
      isLocked now user = false →
      checkHash user.password_hash password = false →
      ((authLogin checkHash now tok db email password remember).2 =
          LoginOutcome.invalidCredentials ∧
       (authLogin checkHash now tok db email password remember).1.users =
         db.users.map (fun u => if u.id = user.id then recordFailedLogin now u else u) ∧
       (authLogin checkHash now tok db email password remember).1.attempts =
         db.attempts ++ [{ email := email, success := false,
                           failure_reason := some "Invalid credentials" }] ∧
       (recordFailedLogin now user).failed_attempts = user.failed_attempts + 1 ∧
       (user.failed_attempts + 1 ≥ 5 →
         (recordFailedLogin now user).locked_until = some (now + 30 * 60)) ∧
       (user.failed_attempts + 1 < 5 →
         (recordFailedLogin now user).locked_until = user.locked_until)) ∧
      ((pakLogin checkHash now tok db email password remember).2 =
          LoginOutcome.invalidCredentials ∧
       (pakLogin checkHash now tok db email password remember).1.users =
         db.users.map (fun u =>
           if u.id = user.id then
             { u with failed_attempts := u.failed_attempts + 1,
                      locked_until := if u.failed_attempts + 1 ≥ 5
                                      then some (now + 15 * 60)
                                      else u.locked_until }
           else u) ∧
       (pakLogin checkHash now tok db email password remember).1.attempts =
         db.attempts ++ [{ email := email, success := false }]) := by
  intro checkHash now tok db email password remember user he hp hfind hlock hchk
  constructor
  · refine ⟨?_, ?_, ?_, rfl, ?_, ?_⟩
    · simp [authLogin, he, hp, hfind, hchk]
    · simp [authLogin, he, hp, hfind, hchk, updateUser]
    · simp [authLogin, he, hp, hfind, hchk, updateUser]
    · intro h5
      simp [recordFailedLogin, h5]
    · intro h5
      simp [recordFailedLogin, Nat.not_le.mpr h5]
  · refine ⟨?_, ?_, ?_⟩ <;> simp [pakLogin, hfind, hlock, hchk, updateUser]

/-- Witness for C2 (amended): fifth failure at `now = 0`; the blueprint
locks until 1800 s, `PakHerd.login` until 900 s. -/
theorem c2_failed_login_bookkeeping_witness :
    (authLogin (fun h p => h == p) 0 "t" c2db "a@b" "bad" false).1.users =
      c2db.users.map (fun u => if u.id = 1 then recordFailedLogin 0 u else u) ∧
    (pakLogin (fun h p => h == p) 0 "t" c2db "a@b" "bad" false).1.users =
      c2db.users.map (fun u =>
        if u.id = 1 then
          { u with failed_attempts := u.failed_attempts + 1,
                   locked_until := if u.failed_attempts + 1 ≥ 5
                                   then some (0 + 15 * 60)
                                   else u.locked_until }
        else u) :=
  ⟨((c2_failed_login_bookkeeping (fun h p => h == p) 0 "t" c2db "a@b" "bad" false
      { id := 1, email := "a@b", password_hash := "pw", failed_attempts := 4 }
      (by decide) (by decide) (by decide) (by decide) (by decide)).1).2.1,
   ((c2_failed_login_bookkeeping (fun h p => h == p) 0 "t" c2db "a@b" "bad" false
      { id := 1, email := "a@b", password_hash := "pw", failed_attempts := 4 }
      (by decide) (by decide) (by decide) (by decide) (by decide)).2).2.1⟩

/-- C5 counterexample: `PakHerd.request_password_reset` on an email with no
account is *not* success-shaped — it returns a failure result saying
`"User not found"`, directly revealing that the email is unregistered. -/
theorem c5_counterexample :
    (pakRequestPasswordReset 0 "tk"
      { users := [], attempts := [], sessions := [], resets := [] } "x@y").success
        = false ∧
    (pakRequestPasswordReset 0 "tk"
      { users := [], attempts := [], sessions := [], resets := [] } "x@y").message
        = "User not found" := by decide

/-- C5 amended: the blueprint `forgot_password` always redirects to the
login page with the generic anti-enumeration flash regardless of whether
the email is registered (though when the user exists and is active it also
flashes the raw token — a development stub that itself leaks existence);
for an existing active user it deletes *all* prior reset rows for that user
and creates one new 24-hour token; `PakHerd.request_password_reset`, by
contrast, fails loudly on unknown emails (see the counterexample). -/
theorem c5_reset_request_shape :
    ∀ (now : Int) (tok : String) (db : AuthDB) (email : String),
      email ≠ "" →
      ((forgotPassword now tok db email).redirectedToLogin = true ∧
       genericResetFlash ∈ (forgotPassword now tok db email).flashes) ∧
      (∀ user : User, findUser db email = some user → user.is_active = true →
        (forgotPassword now tok db email).db.resets =
          db.resets.filter (fun r => !(r.user_id = user.id)) ++
          [{ user_id := user.id, token := tok,
             expires_at := now + 24 * 3600, used := false }]) ∧
      (findUser db email = none →
        (forgotPassword now tok db email).db = db ∧
        (forgotPassword now tok db email).flashes = [genericResetFlash]) := by
  intro now tok db email he
  refine ⟨?_, ?_, ?_⟩
  · rcases hf : findUser db email with _ | user
    · simp [forgotPassword, he, hf, genericResetFlash]
    · by_cases ha : user.is_active <;>
        simp [forgotPassword, he, hf, ha, genericResetFlash]
  · intro user hf ha
    simp [forgotPassword, he, hf, ha]
  · intro hf
    simp [forgotPassword, he, hf]

/-- Witness for C5 (amended): a one-user database; the reset row set after
the request is exactly the one fresh 24-hour token. -/
theorem c5_reset_request_shape_witness :
    (forgotPassword 0 "tk"
      { users := [{ id := 1, email := "a@b" }], attempts := [], sessions := [],
        resets := [{ user_id := 1, token := "old", expires_at := 5 }] }
      "a@b").db.resets =
      [({ user_id := 1, token := "old", expires_at := 5 } : PasswordReset)].filter
          (fun r => !(r.user_id = 1)) ++
        [{ user_id := 1, token := "tk", expires_at := 0 + 24 * 3600, used := false }] :=
  (c5_reset_request_shape 0 "tk"
    { users := [{ id := 1, email := "a@b" }], attempts := [], sessions := [],
      resets := [{ user_id := 1, token := "old", expires_at := 5 }] }
    "a@b" (by decide)).2.1 { id := 1, email := "a@b" } (by decide) (by decide)

/-- First-match header lookup (Python dict access on the headers). -/
def lookupHeader : List (String × String) → String → Option String
  | [], _ => none
  | (k, v) :: rest, key => if k = key then some v else lookupHeader rest key

/-- The webhook C3's witness instantiates: secret `"abc"`. -/
def c3wh : Webhook :=
  { id := 7, url := "https://x.example/hook", secret := some "abc", events := ["ev"] }

set_option maxRecDepth 1000000 in
set_option maxHeartbeats 4000000 in
/-- C3: with a non-empty secret the attached `X-Webhook-Signature` equals
`sha256=` + the hex HMAC-SHA256, keyed by the secret, of the sorted-key
JSON of the *payload alone* (the signature function never sees the
envelope); being a function of `(secret, payload)` it is deterministic; at
the spec's example the canonical JSON and the header value are reproduced
exactly, and changing the payload changes the signature; a webhook with no
secret gets no signature header. -/
theorem c3_signature_scheme :
    (∀ (s : String) (p : PyJson), generateSignature s p =
      "sha256=" ++ bytesToHex (hmacSha256 (utf8Bytes s) (utf8Bytes (dumps p)))) ∧
    (∀ (wh : Webhook) (now : Int) (eventType : String) (p : PyJson) (s : String),
      wh.secret = some s → s ≠ "" →
      lookupHeader (webhookHeaders now wh eventType p) "X-Webhook-Signature" =
        some (generateSignature s p)) ∧
    (∀ (wh : Webhook) (now : Int) (eventType : String) (p : PyJson),
      secretTruthy wh.secret = false →
      lookupHeader (webhookHeaders now wh eventType p) "X-Webhook-Signature" =
        none) ∧
    dumps (.obj [("a", .int 1)]) = "\x7b\"a\": 1\x7d" ∧
    generateSignature "abc" (.obj [("a", .int 1)]) =
      "sha256=28ef4765c5f803f9d2320ad2601be595c20ec0c450f985c2f330f9a42e19e08c" ∧
    generateSignature "abc" (.obj [("a", .int 1)]) ≠
      generateSignature "abc" (.obj [("a", .int 2)]) := by
  refine ⟨fun s p => rfl, ?_, ?_, by decide, by rfl, by decide⟩
  · intro wh now eventType p s hsec hne
    have ht : secretTruthy wh.secret = true := by simp [secretTruthy, hsec, hne]
    rw [webhookHeaders, if_pos ht, hsec]
    simp [lookupHeader]
  · intro wh now eventType p hf
    rw [webhookHeaders, if_neg (by simp [hf])]
    simp [lookupHeader]

/-- Witness for C3 at a concrete webhook carrying secret `"abc"`. -/
theorem c3_signature_scheme_witness :
    lookupHeader (webhookHeaders 99 c3wh "ev" (.obj [("a", .int 1)]))
        "X-Webhook-Signature" =
      some (generateSignature "abc" (.obj [("a", .int 1)])) :=
  c3_signature_scheme.2.1 c3wh 99 "ev" (.obj [("a", .int 1)]) "abc" rfl
    (by decide)

/-- `deliverToWebhook` appends exactly one delivery row, in both the HTTP
and the transport-failure branch. -/
theorem deliverToWebhook_adds_one (now : Int)
    (respond : String → PyJson → HttpOutcome) (st : WebhookDB) (wh : Webhook)
    (eventType : String) (payload : PyJson) :
    (deliverToWebhook now respond st wh eventType payload).1.deliveries.length =
      st.deliveries.length + 1 := by
  cases h : respond wh.url (requestData now eventType payload) <;>
    simp [deliverToWebhook, h]

/-- The fan-out loop visits every webhook in the list: it appends one
delivery row per webhook and its two tallies sum to the list length. -/
theorem deliverLoop_totals (now : Int) (respond : String → PyJson → HttpOutcome)
    (eventType : String) (payload : PyJson) :
    ∀ (l : List Webhook) (st : WebhookDB),
      (deliverLoop now respond eventType payload l st).1.deliveries.length =
        st.deliveries.length + l.length ∧
      (deliverLoop now respond eventType payload l st).2.1 +
        (deliverLoop now respond eventType payload l st).2.2 = l.length := by
  intro l
  induction l with
  | nil => intro st; simp [deliverLoop]
  | cons wh rest ih =>
    intro st
    have hone := deliverToWebhook_adds_one now respond st wh eventType payload
    have hr := ih (deliverToWebhook now respond st wh eventType payload).1
    unfold deliverLoop
    cases hs : (deliverToWebhook now respond st wh eventType payload).2.success <;>
      simp [hs, hr.1, hr.2, hone] <;> omega

/-- C8: an event with zero matching active subscribed webhooks yields a
success report with `deliveries = 0` and an unchanged state (no delivery
rows written); with matches, every matching webhook is attempted (one new
delivery row each, so one failure cannot abort the rest), the report is a
success, and `successful + failed` equals the number of matches. -/
theorem c8_deliver_event_fanout :
    ∀ (now : Int) (respond : String → PyJson → HttpOutcome) (st : WebhookDB)
      (eventType : String) (payload : PyJson),
      (matchingWebhooks st eventType = [] →
        deliverEvent now respond st eventType payload =
          (st, { success := true, deliveries := 0 })) ∧
      (deliverEvent now respond st eventType payload).2.success = true ∧
      (deliverEvent now respond st eventType payload).2.deliveries =
        (matchingWebhooks st eventType).length ∧
      (deliverEvent now respond st eventType payload).2.successful +
          (deliverEvent now respond st eventType payload).2.failed =
        (matchingWebhooks st eventType).length ∧
      (deliverEvent now respond st eventType payload).1.deliveries.length =
        st.deliveries.length + (matchingWebhooks st eventType).length := by
  intro now respond st eventType payload
  by_cases hm : matchingWebhooks st eventType = []
  · refine ⟨fun _ => ?_, ?_, ?_, ?_, ?_⟩ <;>
      simp [deliverEvent, hm, List.isEmpty_nil]
  · have hne : (matchingWebhooks st eventType).isEmpty = false := by
      simpa [List.isEmpty_iff] using hm
    have hl := deliverLoop_totals now respond eventType payload
      (matchingWebhooks st eventType) st
    refine ⟨fun h => absurd h hm, ?_, ?_, ?_, ?_⟩ <;>
      simp [deliverEvent, hne, hl.1, hl.2]

/-- Witness for C8: no webhook subscribes to `"x"`, so the call returns a
zero-delivery success and leaves the (empty) state untouched. -/
theorem c8_deliver_event_fanout_witness :
    deliverEvent 0 (fun _ _ => .err "down")
        { webhooks := [], deliveries := [], nextDeliveryId := 0 } "x" .null =
      ({ webhooks := [], deliveries := [], nextDeliveryId := 0 },
       { success := true, deliveries := 0 }) :=
  (c8_deliver_event_fanout 0 (fun _ _ => .err "down")
    { webhooks := [], deliveries := [], nextDeliveryId := 0 } "x" .null).1 rfl

/-! ## Characterizing `retry_failed_deliveries` (C4, C9)

The loop threads the database while it both appends fresh rows (through
`deliverToWebhook`) and mutates the original rows in place.  The functions
below state, per selected delivery, what the loop does — defined over the
stable columns of the webhook table, which counter updates never touch. -/

/-- The webhook columns `deliver_to_webhook`'s bookkeeping never changes. -/
def stableW (w : Webhook) : Nat × String × Bool := (w.id, w.url, w.is_active)

/-- The row `deliver_to_webhook` appends for one attempt. -/
def deliveredRow (now : Int) (respond : String → PyJson → HttpOutcome)
    (wh : Webhook) (eventType : String) (p : PyJson) (nid : Nat) :
    WebhookDelivery :=
  match respond wh.url (requestData now eventType p) with
  | .ok status text =>
      { id := nid, webhook_id := wh.id, event := eventType,
        payload := requestData now eventType p, status_code := some status,
        response_body := text.take 1000, retry_count := 0 }
  | .err msg =>
      { id := nid, webhook_id := wh.id, event := eventType,
        payload := .obj [("event", .str eventType), ("data", p)],
        status_code := none, response_body := msg, retry_count := 0 }

/-- Whether one attempt by `deliver_to_webhook` counts as a success. -/
def deliverSuccess (now : Int) (respond : String → PyJson → HttpOutcome)
    (wh : Webhook) (eventType : String) (p : PyJson) : Bool :=
  match respond wh.url (requestData now eventType p) with
  | .ok status _ => is2xx status
  | .err _ => false

/-- What the retry loop decides for one selected delivery: `none` when the
owning webhook is gone or inactive (skipped), otherwise `some ok` with the
re-attempt's success flag. -/
def retryDecision (now : Int) (respond : String → PyJson → HttpOutcome)
    (ws : List Webhook) (d : WebhookDelivery) : Option Bool :=
  match ws.find? (fun w => w.id = d.webhook_id) with
  | none => none
  | some wh =>
      if wh.is_active then
        some (deliverSuccess now respond wh d.event (payloadData d.payload))
      else none

/-- The fresh row a re-attempted delivery appends. -/
def retryNewRow (now : Int) (respond : String → PyJson → HttpOutcome)
    (ws : List Webhook) (d : WebhookDelivery) (nid : Nat) : WebhookDelivery :=
  match ws.find? (fun w => w.id = d.webhook_id) with
  | some wh => deliveredRow now respond wh d.event (payloadData d.payload) nid
  | none => { id := nid, webhook_id := d.webhook_id, event := d.event }

/-- The in-place change the loop leaves on an original row. -/
def retryUpd (now : Int) (respond : String → PyJson → HttpOutcome)
    (ws : List Webhook) (todo : List WebhookDelivery)
    (row : WebhookDelivery) : WebhookDelivery :=
  match todo.find? (fun d => d.id = row.id) with
  | none => row
  | some d =>
      match retryDecision now respond ws d with
      | none => row
      | some ok => bumpRetry ok row

/-- The fresh rows appended across the loop, with their sequential ids. -/
def retryNewRows (now : Int) (respond : String → PyJson → HttpOutcome)
    (ws : List Webhook) : List WebhookDelivery → Nat → List WebhookDelivery
  | [], _ => []
  | d :: rest, nid =>
      match retryDecision now respond ws d with
      | none => retryNewRows now respond ws rest nid
      | some _ => retryNewRow now respond ws d nid ::
          retryNewRows now respond ws rest (nid + 1)

/-- The delivery row carrying a given id (primary-key lookup). -/
def rowById (st : WebhookDB) (i : Nat) : Option WebhookDelivery :=
  st.deliveries.find? (fun r => r.id = i)

/-- The id well-formedness the ORM guarantees: primary keys are unique and
below the autoincrement counter. -/
def wfDB (st : WebhookDB) : Prop :=
  (st.deliveries.map (fun r => r.id)).Nodup ∧
  ∀ row ∈ st.deliveries, row.id < st.nextDeliveryId

/-- `bumpRetry` never changes the row id. -/
theorem bumpRetry_id (ok : Bool) (r : WebhookDelivery) :
    (bumpRetry ok r).id = r.id := by
  cases ok <;> simp [bumpRetry]

/-- `retryUpd` never changes the row id. -/
theorem retryUpd_id (now : Int) (respond : String → PyJson → HttpOutcome)
    (ws : List Webhook) (todo : List WebhookDelivery) (row : WebhookDelivery) :
    (retryUpd now respond ws todo row).id = row.id := by
  cases h : todo.find? (fun d => d.id = row.id) with
  | none => simp [retryUpd, h]
  | some d =>
      cases h2 : retryDecision now respond ws d with
      | none => simp [retryUpd, h, h2]
      | some ok => simp [retryUpd, h, h2, bumpRetry_id]

/-- `retryUpd` when no selected row carries this id. -/
theorem retryUpd_find_none (now : Int) (respond : String → PyJson → HttpOutcome)
    (ws : List Webhook) (todo : List WebhookDelivery) (row : WebhookDelivery)
    (h : todo.find? (fun d => d.id = row.id) = none) :
    retryUpd now respond ws todo row = row := by
  unfold retryUpd
  rw [h]

/-- `retryUpd` through the first selected row carrying this id. -/
theorem retryUpd_find_some (now : Int) (respond : String → PyJson → HttpOutcome)
    (ws : List Webhook) (todo : List WebhookDelivery) (row e : WebhookDelivery)
    (h : todo.find? (fun d => d.id = row.id) = some e) :
    retryUpd now respond ws todo row =
      (match retryDecision now respond ws e with
       | none => row
       | some ok => bumpRetry ok row) := by
  unfold retryUpd
  rw [h]

/-- A row none of `todo` targets is left unchanged by `retryUpd`. -/
theorem retryUpd_not_mem (now : Int) (respond : String → PyJson → HttpOutcome)
    (ws : List Webhook) (todo : List WebhookDelivery) (row : WebhookDelivery)
    (h : ∀ d ∈ todo, ¬(d.id = row.id)) :
    retryUpd now respond ws todo row = row :=
  retryUpd_find_none now respond ws todo row
    (List.find?_eq_none.mpr (by simpa using h))

/-- The state parts of one `deliverToWebhook` call: one appended row with
the next id, the counter moved on, the stable webhook columns untouched,
and the surfaced success flag. -/
theorem deliverToWebhook_state (now : Int)
    (respond : String → PyJson → HttpOutcome) (st : WebhookDB) (wh : Webhook)
    (eventType : String) (p : PyJson) :
    (deliverToWebhook now respond st wh eventType p).1.deliveries =
      st.deliveries ++ [deliveredRow now respond wh eventType p st.nextDeliveryId] ∧
    (deliverToWebhook now respond st wh eventType p).1.nextDeliveryId =
      st.nextDeliveryId + 1 ∧
    (deliverToWebhook now respond st wh eventType p).1.webhooks.map stableW =
      st.webhooks.map stableW ∧
    (deliverToWebhook now respond st wh eventType p).2.success =
      deliverSuccess now respond wh eventType p := by
  cases h : respond wh.url (requestData now eventType p) with
  | ok status text =>
      refine ⟨?_, ?_, ?_, ?_⟩
      · simp [deliverToWebhook, h, deliveredRow]
      · simp [deliverToWebhook, h]
      · simp only [deliverToWebhook, h]
        rw [List.map_map]
        exact List.map_congr_left (fun w _ => by
          by_cases hw : w.id = wh.id <;> simp [stableW, Function.comp, hw])
      · simp [deliverToWebhook, h, deliverSuccess]
  | err msg =>
      refine ⟨?_, ?_, ?_, ?_⟩
      · simp [deliverToWebhook, h, deliveredRow]
      · simp [deliverToWebhook, h]
      · simp only [deliverToWebhook, h]
        rw [List.map_map]
        exact List.map_congr_left (fun w _ => by
          by_cases hw : w.id = wh.id <;> simp [stableW, Function.comp, hw])
      · simp [deliverToWebhook, h, deliverSuccess]

/-- Webhook lookups by id agree, up to the stable columns, between two
tables with the same stable projection. -/
theorem find_stableW : ∀ (l l2 : List Webhook),
    l.map stableW = l2.map stableW → ∀ i : Nat,
    Option.map stableW (l.find? (fun w => w.id = i)) =
      Option.map stableW (l2.find? (fun w => w.id = i)) := by
  intro l
  induction l with
  | nil =>
      intro l2 h i
      cases l2 with
      | nil => rfl
      | cons w2 r2 => simp at h
  | cons w r ih =>
      intro l2 h i
      cases l2 with
      | nil => simp at h
      | cons w2 r2 =>
          simp only [List.map_cons, List.cons.injEq] at h
          obtain ⟨h1, h2⟩ := h
          have hid : w.id = w2.id := by
            have := congrArg Prod.fst h1
            simpa [stableW] using this
          by_cases hi : w.id = i
          · rw [List.find?_cons_of_pos _ (by simpa using hi),
               List.find?_cons_of_pos _ (by simpa [← hid] using hi)]
            simp [h1]
          · rw [List.find?_cons_of_neg _ (by simpa using hi),
               List.find?_cons_of_neg _ (by simpa [← hid] using hi)]
            exact ih r2 h2 i

/-- `deliveredRow` carries the id it is given. -/
theorem deliveredRow_id (now : Int) (respond : String → PyJson → HttpOutcome)
    (wh : Webhook) (e : String) (p : PyJson) (nid : Nat) :
    (deliveredRow now respond wh e p nid).id = nid := by
  unfold deliveredRow
  cases respond wh.url (requestData now e p) <;> rfl

/-- `deliveredRow` reads only the stable webhook columns. -/
theorem deliveredRow_congr (now : Int) (respond : String → PyJson → HttpOutcome)
    (wh w0 : Webhook) (e : String) (p : PyJson) (nid : Nat)
    (hid : wh.id = w0.id) (hurl : wh.url = w0.url) :
    deliveredRow now respond wh e p nid = deliveredRow now respond w0 e p nid := by
  unfold deliveredRow
  rw [hid, hurl]

/-- `deliverSuccess` reads only the target url. -/
theorem deliverSuccess_congr (now : Int) (respond : String → PyJson → HttpOutcome)
    (wh w0 : Webhook) (e : String) (p : PyJson) (hurl : wh.url = w0.url) :
    deliverSuccess now respond wh e p = deliverSuccess now respond w0 e p := by
  unfold deliverSuccess
  rw [hurl]

/-- Head element skipped: `retryUpd` over the tail agrees, provided the
head's id is not reused in the tail. -/
theorem retryUpd_cons_skip (now : Int) (respond : String → PyJson → HttpOutcome)
    (ws0 : List Webhook) (d : WebhookDelivery) (rest : List WebhookDelivery)
    (hdec : retryDecision now respond ws0 d = none)
    (hnd : ∀ d2 ∈ rest, d2.id ≠ d.id) (row : WebhookDelivery) :
    retryUpd now respond ws0 (d :: rest) row = retryUpd now respond ws0 rest row := by
  by_cases hr : d.id = row.id
  · have hrest : rest.find? (fun d2 => d2.id = row.id) = none :=
      List.find?_eq_none.mpr (fun d2 h2 => by simp [← hr, hnd d2 h2])
    rw [retryUpd_find_some now respond ws0 (d :: rest) row d
         (List.find?_cons_of_pos _ (by simp [hr])), hdec,
       retryUpd_find_none now respond ws0 rest row hrest]
  · have hcons : (d :: rest).find? (fun d2 => d2.id = row.id) =
        rest.find? (fun d2 => d2.id = row.id) :=
      List.find?_cons_of_neg _ (by simp [hr])
    unfold retryUpd
    rw [hcons]

/-- Head element re-attempted: the loop's in-place change on the head's
row composed with `retryUpd` over the tail is `retryUpd` over the whole
selection. -/
theorem retryUpd_cons_hit (now : Int) (respond : String → PyJson → HttpOutcome)
    (ws0 : List Webhook) (d : WebhookDelivery) (rest : List WebhookDelivery)
    (ok : Bool) (hdec : retryDecision now respond ws0 d = some ok)
    (hnd : ∀ d2 ∈ rest, d2.id ≠ d.id) (row : WebhookDelivery) :
    retryUpd now respond ws0 rest (if row.id = d.id then bumpRetry ok row else row) =
      retryUpd now respond ws0 (d :: rest) row := by
  by_cases hr : row.id = d.id
  · have hb : (bumpRetry ok row).id = d.id := by rw [bumpRetry_id, hr]
    have hrest : rest.find? (fun d2 => d2.id = (bumpRetry ok row).id) = none :=
      List.find?_eq_none.mpr (fun d2 h2 => by simp [hb, hnd d2 h2])
    rw [if_pos hr,
       retryUpd_find_none now respond ws0 rest (bumpRetry ok row) hrest,
       retryUpd_find_some now respond ws0 (d :: rest) row d
         (List.find?_cons_of_pos _ (by simp [hr.symm])), hdec]
  · have hne : ¬d.id = row.id := fun h => hr h.symm
    have hcons : (d :: rest).find? (fun d2 => d2.id = row.id) =
        rest.find? (fun d2 => d2.id = row.id) :=
      List.find?_cons_of_neg _ (by simp [hne])
    rw [if_neg hr]
    unfold retryUpd
    rw [hcons]

/-- The full characterization of the retry loop: original rows are mapped
through `retryUpd` in place, the re-attempts' fresh rows are appended with
sequential ids, the stable webhook columns survive, and the two tallies
count the decisions. -/
theorem retryLoop_spec (now : Int) (respond : String → PyJson → HttpOutcome)
    (ws0 : List Webhook) :
    ∀ (todo : List WebhookDelivery) (st : WebhookDB),
      st.webhooks.map stableW = ws0.map stableW →
      (∀ d ∈ todo, d.id < st.nextDeliveryId) →
      (∀ d ∈ todo, ∀ row ∈ st.deliveries, row.id = d.id → row = d) →
      (todo.map (fun d => d.id)).Nodup →
      (∀ row ∈ st.deliveries, row.id < st.nextDeliveryId) →
      (retryLoop now respond todo st).1.deliveries =
        st.deliveries.map (retryUpd now respond ws0 todo) ++
          retryNewRows now respond ws0 todo st.nextDeliveryId ∧
      (retryLoop now respond todo st).1.webhooks.map stableW = ws0.map stableW ∧
      (retryLoop now respond todo st).2.1 =
        todo.countP (fun d => retryDecision now respond ws0 d == some true) ∧
      (retryLoop now respond todo st).2.2 =
        todo.countP (fun d => retryDecision now respond ws0 d == some false) := by
  intro todo
  induction todo with
  | nil =>
      intro st hws hlt hsnap hnodup hbound
      refine ⟨?_, hws, rfl, rfl⟩
      have h0 : ∀ row ∈ st.deliveries, retryUpd now respond ws0 [] row = row :=
        fun row _ => retryUpd_not_mem now respond ws0 [] row (by simp)
      simp [retryLoop, retryNewRows, List.map_congr_left h0]
  | cons d rest ih =>
      intro st hws hlt hsnap hnodup hbound
      have hpair : (∀ x ∈ rest, ¬x.id = d.id) ∧
          (rest.map (fun d => d.id)).Nodup := by simpa using hnodup
      have hnd : ∀ d2 ∈ rest, d2.id ≠ d.id := fun d2 h2 => hpair.1 d2 h2
      have hrestnodup : (rest.map (fun d => d.id)).Nodup := hpair.2
      have htrans := find_stableW st.webhooks ws0 hws d.webhook_id
      cases hf : st.webhooks.find? (fun w => w.id = d.webhook_id) with
      | none =>
          have hw0 : ws0.find? (fun w => w.id = d.webhook_id) = none := by
            rw [hf] at htrans
            cases hx : ws0.find? (fun w => w.id = d.webhook_id) with
            | none => rfl
            | some w0 => rw [hx] at htrans; simp at htrans
          have hdec : retryDecision now respond ws0 d = none := by
            simp [retryDecision, hw0]
          have hres := ih st hws
            (fun d2 h2 => hlt d2 (List.mem_cons_of_mem _ h2))
            (fun d2 h2 => hsnap d2 (List.mem_cons_of_mem _ h2))
            hrestnodup hbound
          have hloop : retryLoop now respond (d :: rest) st =
              retryLoop now respond rest st := by
            simp [retryLoop, hf]
          rw [hloop]
          refine ⟨?_, hres.2.1, ?_, ?_⟩
          · rw [hres.1]
            congr 1
            · exact List.map_congr_left (fun row _ =>
                (retryUpd_cons_skip now respond ws0 d rest hdec hnd row).symm)
            · simp [retryNewRows, hdec]
          · rw [hres.2.2.1, List.countP_cons]
            simp [hdec]
          · rw [hres.2.2.2, List.countP_cons]
            simp [hdec]
      | some wh =>
          obtain ⟨w0, hw0, hstab⟩ : ∃ w0,
              ws0.find? (fun w => w.id = d.webhook_id) = some w0 ∧
              stableW wh = stableW w0 := by
            rw [hf] at htrans
            cases hx : ws0.find? (fun w => w.id = d.webhook_id) with
            | none => rw [hx] at htrans; simp at htrans
            | some w0 =>
                rw [hx] at htrans
                simp only [Option.map_some'] at htrans
                exact ⟨w0, rfl, by simpa using htrans⟩
          have hid : wh.id = w0.id := by
            have h := congrArg Prod.fst hstab
            simpa [stableW] using h
          have hurl : wh.url = w0.url := by
            have h := congrArg (fun x => x.2.1) hstab
            simpa [stableW] using h
          have hact : wh.is_active = w0.is_active := by
            have h := congrArg (fun x => x.2.2) hstab
            simpa [stableW] using h
          by_cases hactive : wh.is_active
          · -- the head delivery is re-attempted
            have hok : deliverSuccess now respond wh d.event (payloadData d.payload) =
                deliverSuccess now respond w0 d.event (payloadData d.payload) :=
              deliverSuccess_congr now respond wh w0 _ _ hurl
            have hst := deliverToWebhook_state now respond st wh d.event (payloadData d.payload)
            rcases hpq : deliverToWebhook now respond st wh d.event (payloadData d.payload)
              with ⟨pst, pres⟩
            rw [hpq] at hst
            simp only at hst
            have hdecok : retryDecision now respond ws0 d = some pres.success := by
              rw [hst.2.2.2, hok]
              simp [retryDecision, hw0, ← hact, hactive]
            have h2del : (updateDeliveryRow pst d.id (bumpRetry pres.success)).deliveries =
                st.deliveries.map (fun r => if r.id = d.id then bumpRetry pres.success r else r) ++
                [deliveredRow now respond wh d.event (payloadData d.payload) st.nextDeliveryId] := by
              show pst.deliveries.map _ = _
              rw [hst.1, List.map_append]
              congr 1
              simp [deliveredRow_id, Nat.ne_of_gt (hlt d (List.mem_cons_self d rest))]
            have h2next : (updateDeliveryRow pst d.id (bumpRetry pres.success)).nextDeliveryId =
                st.nextDeliveryId + 1 := by
              show pst.nextDeliveryId = _
              exact hst.2.1
            have h2ws : (updateDeliveryRow pst d.id (bumpRetry pres.success)).webhooks.map stableW =
                ws0.map stableW := by
              show pst.webhooks.map stableW = _
              rw [hst.2.2.1, hws]
            have hlt2 : ∀ d2 ∈ rest,
                d2.id < (updateDeliveryRow pst d.id (bumpRetry pres.success)).nextDeliveryId := by
              intro d2 h2
              rw [h2next]
              exact Nat.lt_succ_of_lt (hlt d2 (List.mem_cons_of_mem _ h2))
            have hsnap2 : ∀ d2 ∈ rest,
                ∀ row ∈ (updateDeliveryRow pst d.id (bumpRetry pres.success)).deliveries,
                row.id = d2.id → row = d2 := by
              intro d2 h2 row hrow hid2
              rw [h2del] at hrow
              rcases List.mem_append.mp hrow with hrow | hrow
              · obtain ⟨r0, hr0, hr0eq⟩ := List.mem_map.mp hrow
                by_cases hcase : r0.id = d.id
                · rw [if_pos hcase] at hr0eq
                  exfalso
                  apply hnd d2 h2
                  rw [← hid2, ← hr0eq, bumpRetry_id, hcase]
                · rw [if_neg hcase] at hr0eq
                  rw [← hr0eq]
                  exact hsnap d2 (List.mem_cons_of_mem _ h2) r0 hr0 (by rw [← hid2, ← hr0eq])
              · simp only [List.mem_singleton] at hrow
                subst hrow
                rw [deliveredRow_id] at hid2
                have hb := hlt d2 (List.mem_cons_of_mem _ h2)
                omega
            have hbound2 : ∀ row ∈ (updateDeliveryRow pst d.id (bumpRetry pres.success)).deliveries,
                row.id < (updateDeliveryRow pst d.id (bumpRetry pres.success)).nextDeliveryId := by
              intro row hrow
              rw [h2del] at hrow
              rw [h2next]
              rcases List.mem_append.mp hrow with hrow | hrow
              · obtain ⟨r0, hr0, hr0eq⟩ := List.mem_map.mp hrow
                have hb := hbound r0 hr0
                by_cases hcase : r0.id = d.id
                · rw [if_pos hcase] at hr0eq
                  rw [← hr0eq, bumpRetry_id]
                  omega
                · rw [if_neg hcase] at hr0eq
                  rw [← hr0eq]
                  omega
              · simp only [List.mem_singleton] at hrow
                subst hrow
                rw [deliveredRow_id]
                omega
            have hres := ih (updateDeliveryRow pst d.id (bumpRetry pres.success))
              h2ws hlt2 hsnap2 hrestnodup hbound2
            have hloop : retryLoop now respond (d :: rest) st =
                ((retryLoop now respond rest (updateDeliveryRow pst d.id (bumpRetry pres.success))).1,
                 (if pres.success then
                    (retryLoop now respond rest (updateDeliveryRow pst d.id (bumpRetry pres.success))).2.1 + 1
                  else
                    (retryLoop now respond rest (updateDeliveryRow pst d.id (bumpRetry pres.success))).2.1),
                 (if pres.success then
                    (retryLoop now respond rest (updateDeliveryRow pst d.id (bumpRetry pres.success))).2.2
                  else
                    (retryLoop now respond rest (updateDeliveryRow pst d.id (bumpRetry pres.success))).2.2 + 1)) := by
              simp [retryLoop, hf, hactive, hpq]
            rw [hloop]
            have hnewrow :
                deliveredRow now respond wh d.event (payloadData d.payload) st.nextDeliveryId =
                retryNewRow now respond ws0 d st.nextDeliveryId := by
              rw [retryNewRow, hw0]
              exact deliveredRow_congr now respond wh w0 _ _ _ hid hurl
            refine ⟨?_, hres.2.1, ?_, ?_⟩
            · show (retryLoop now respond rest (updateDeliveryRow pst d.id (bumpRetry pres.success))).1.deliveries = _
              rw [hres.1, h2del, h2next, List.map_append]
              have hmap1 : (st.deliveries.map (fun r => if r.id = d.id then bumpRetry pres.success r else r)).map
                  (retryUpd now respond ws0 rest) =
                  st.deliveries.map (retryUpd now respond ws0 (d :: rest)) := by
                rw [List.map_map]
                exact List.map_congr_left (fun row _ =>
                  retryUpd_cons_hit now respond ws0 d rest pres.success hdecok hnd row)
              have hmap2 : ([deliveredRow now respond wh d.event (payloadData d.payload) st.nextDeliveryId]).map
                  (retryUpd now respond ws0 rest) =
                  [deliveredRow now respond wh d.event (payloadData d.payload) st.nextDeliveryId] := by
                simp only [List.map_cons, List.map_nil, List.cons.injEq, and_true]
                apply retryUpd_not_mem
                intro d2 h2
                rw [deliveredRow_id]
                exact Nat.ne_of_lt (hlt d2 (List.mem_cons_of_mem _ h2))
              rw [hmap1, hmap2]
              rw [show retryNewRows now respond ws0 (d :: rest) st.nextDeliveryId =
                  retryNewRow now respond ws0 d st.nextDeliveryId ::
                    retryNewRows now respond ws0 rest (st.nextDeliveryId + 1) from by
                simp [retryNewRows, hdecok]]
              rw [← hnewrow]
              simp
            · show (if pres.success then _ + 1 else _) = _
              rw [hres.2.2.1, List.countP_cons]
              simp [hdecok]
              cases pres.success <;> simp
            · show (if pres.success then _ else _ + 1) = _
              rw [hres.2.2.2, List.countP_cons]
              simp [hdecok]
              cases pres.success <;> simp
          · -- the owning webhook is inactive: skipped
            have hdec : retryDecision now respond ws0 d = none := by
              have hwa : w0.is_active = false := by
                rw [← hact]
                simpa using hactive
              simp [retryDecision, hw0, hwa]
            have hres := ih st hws
              (fun d2 h2 => hlt d2 (List.mem_cons_of_mem _ h2))
              (fun d2 h2 => hsnap d2 (List.mem_cons_of_mem _ h2))
              hrestnodup hbound
            have hloop : retryLoop now respond (d :: rest) st =
                retryLoop now respond rest st := by
              simp [retryLoop, hf, hactive]
            rw [hloop]
            refine ⟨?_, hres.2.1, ?_, ?_⟩
            · rw [hres.1]
              congr 1
              · exact List.map_congr_left (fun row _ =>
                  (retryUpd_cons_skip now respond ws0 d rest hdec hnd row).symm)
              · simp [retryNewRows, hdec]
            · rw [hres.2.2.1, List.countP_cons]
              simp [hdec]
            · rw [hres.2.2.2, List.countP_cons]
              simp [hdec]

/-- `find?` by id commutes with an id-preserving map. -/
theorem find?_id_map (l : List WebhookDelivery) (f : WebhookDelivery → WebhookDelivery)
    (hid : ∀ r, (f r).id = r.id) (i : Nat) :
    (l.map f).find? (fun r => r.id = i) = Option.map f (l.find? (fun r => r.id = i)) := by
  induction l with
  | nil => rfl
  | cons a l ih =>
      by_cases h : a.id = i
      · rw [List.map_cons, List.find?_cons_of_pos _ (by simp [hid, h]),
            List.find?_cons_of_pos _ (by simp [h])]
        rfl
      · rw [List.map_cons, List.find?_cons_of_neg _ (by simp [hid, h]),
            List.find?_cons_of_neg _ (by simp [h]), ih]

/-- With unique ids, `find?` by a member's id returns that member. -/
theorem find?_id_of_mem_nodup (l : List WebhookDelivery) (row : WebhookDelivery)
    (hmem : row ∈ l) (hnodup : (l.map (fun r => r.id)).Nodup) :
    l.find? (fun r => r.id = row.id) = some row := by
  induction l with
  | nil => cases hmem
  | cons a l ih =>
      have hpair : (∀ x ∈ l, ¬x.id = a.id) ∧ (l.map (fun r => r.id)).Nodup := by
        simpa using hnodup
      rcases List.mem_cons.mp hmem with h | h
      · rw [← h, List.find?_cons_of_pos _ (by simp)]
      · by_cases ha : a.id = row.id
        · exact absurd (ha ▸ rfl : row.id = a.id) (hpair.1 row h)
        · rw [List.find?_cons_of_neg _ (by simp [ha])]
          exact ih h hpair.2

/-- The number of fresh rows is the number of re-attempted deliveries. -/
theorem retryNewRows_length (now : Int) (respond : String → PyJson → HttpOutcome)
    (ws : List Webhook) :
    ∀ (todo : List WebhookDelivery) (n : Nat),
      (retryNewRows now respond ws todo n).length =
        todo.countP (fun d => (retryDecision now respond ws d).isSome) := by
  intro todo
  induction todo with
  | nil => intro n; simp [retryNewRows]
  | cons d rest ih =>
      intro n
      cases hdec : retryDecision now respond ws d with
      | none => simp [retryNewRows, hdec, ih, List.countP_cons]
      | some ok => simp [retryNewRows, hdec, ih, List.countP_cons]

/-- A re-attempted delivery's fresh row appears (with some id) among the
appended rows. -/
theorem retryNewRows_mem (now : Int) (respond : String → PyJson → HttpOutcome)
    (ws : List Webhook) :
    ∀ (todo : List WebhookDelivery) (n : Nat) (d : WebhookDelivery),
      d ∈ todo → (retryDecision now respond ws d).isSome →
      ∃ nid, retryNewRow now respond ws d nid ∈ retryNewRows now respond ws todo n := by
  intro todo
  induction todo with
  | nil => intro n d h; cases h
  | cons d0 rest ih =>
      intro n d hmem hsome
      rcases List.mem_cons.mp hmem with h | h
      · rw [h] at hsome ⊢
        cases hdec : retryDecision now respond ws d0 with
        | none => rw [hdec] at hsome; cases hsome
        | some ok => exact ⟨n, by simp [retryNewRows, hdec]⟩
      · cases hdec : retryDecision now respond ws d0 with
        | none =>
            obtain ⟨nid, hn⟩ := ih n d h hsome
            exact ⟨nid, by simp only [retryNewRows, hdec]; exact hn⟩
        | some ok =>
            obtain ⟨nid, hn⟩ := ih (n + 1) d h hsome
            exact ⟨nid, by simp only [retryNewRows, hdec, List.mem_cons]; exact Or.inr hn⟩

/-- What `retry_failed_deliveries` does to each row and to the report,
shared by the retry claims: selection is exactly the filter, skipped and
re-attempted rows get their in-place changes, and one fresh row is
appended per re-attempt. -/
theorem retryFailedDeliveries_spec :
    ∀ (now : Int) (respond : String → PyJson → HttpOutcome) (st : WebhookDB)
      (maxRetries : Nat),
      wfDB st →
      (retryFailedDeliveries now respond st maxRetries).2.retried =
        (st.deliveries.filter (eligibleRetry maxRetries)).length ∧
      (retryFailedDeliveries now respond st maxRetries).2.successful =
        (st.deliveries.filter (eligibleRetry maxRetries)).countP
          (fun d => retryDecision now respond st.webhooks d == some true) ∧
      (retryFailedDeliveries now respond st maxRetries).2.failed =
        (st.deliveries.filter (eligibleRetry maxRetries)).countP
          (fun d => retryDecision now respond st.webhooks d == some false) ∧
      (∀ row ∈ st.deliveries, eligibleRetry maxRetries row = false →
        rowById (retryFailedDeliveries now respond st maxRetries).1 row.id =
          some row) ∧
      (∀ row ∈ st.deliveries, eligibleRetry maxRetries row = true →
        retryDecision now respond st.webhooks row = none →
        rowById (retryFailedDeliveries now respond st maxRetries).1 row.id =
          some row) ∧
      (∀ row ∈ st.deliveries, eligibleRetry maxRetries row = true →
        retryDecision now respond st.webhooks row = some true →
        rowById (retryFailedDeliveries now respond st maxRetries).1 row.id =
          some { row with retry_count := row.retry_count + 1,
                          status_code := some 200 }) ∧
      (∀ row ∈ st.deliveries, eligibleRetry maxRetries row = true →
        retryDecision now respond st.webhooks row = some false →
        rowById (retryFailedDeliveries now respond st maxRetries).1 row.id =
          some { row with retry_count := row.retry_count + 1 }) ∧
      (retryFailedDeliveries now respond st maxRetries).1.deliveries.length =
        st.deliveries.length +
          (st.deliveries.filter (eligibleRetry maxRetries)).countP
            (fun d => (retryDecision now respond st.webhooks d).isSome) := by
  intro now respond st maxR hwf
  have hsubmem : ∀ d ∈ st.deliveries.filter (eligibleRetry maxR), d ∈ st.deliveries :=
    fun d hd => List.mem_of_mem_filter hd
  have hlt : ∀ d ∈ st.deliveries.filter (eligibleRetry maxR), d.id < st.nextDeliveryId :=
    fun d hd => hwf.2 d (hsubmem d hd)
  have hsnap : ∀ d ∈ st.deliveries.filter (eligibleRetry maxR),
      ∀ row ∈ st.deliveries, row.id = d.id → row = d :=
    fun d hd row hrow hid => List.inj_on_of_nodup_map hwf.1 hrow (hsubmem d hd) hid
  have htodonodup : ((st.deliveries.filter (eligibleRetry maxR)).map (fun d => d.id)).Nodup :=
    List.Nodup.sublist (List.Sublist.map _ (List.filter_sublist _)) hwf.1
  have hmemtodo : ∀ row ∈ st.deliveries, eligibleRetry maxR row = true →
      row ∈ st.deliveries.filter (eligibleRetry maxR) :=
    fun row h he => List.mem_filter.mpr ⟨h, he⟩
  have hnotintodo : ∀ row ∈ st.deliveries, eligibleRetry maxR row = false →
      ∀ d ∈ st.deliveries.filter (eligibleRetry maxR), ¬(d.id = row.id) := by
    intro row hrow he d hd heq
    have hdr : d = row := List.inj_on_of_nodup_map hwf.1 (hsubmem d hd) hrow heq
    have : eligibleRetry maxR d = true := (List.mem_filter.mp hd).2
    rw [hdr, he] at this
    cases this
  by_cases hempty : (st.deliveries.filter (eligibleRetry maxR)).isEmpty
  · have htodoeq : st.deliveries.filter (eligibleRetry maxR) = [] :=
      List.isEmpty_iff.mp hempty
    have hrfd : retryFailedDeliveries now respond st maxR =
        (st, { success := true, retried := 0 }) := by
      unfold retryFailedDeliveries
      rw [htodoeq]
      rfl
    rw [hrfd]
    refine ⟨by simp [htodoeq], by simp [htodoeq], by simp [htodoeq], ?_, ?_, ?_, ?_,
      by simp [htodoeq]⟩
    · intro row hrow _
      exact find?_id_of_mem_nodup st.deliveries row hrow hwf.1
    · intro row hrow he _
      exact absurd (hmemtodo row hrow he) (by simp [htodoeq])
    · intro row hrow he _
      exact absurd (hmemtodo row hrow he) (by simp [htodoeq])
    · intro row hrow he _
      exact absurd (hmemtodo row hrow he) (by simp [htodoeq])
  · have hne : (st.deliveries.filter (eligibleRetry maxR)).isEmpty = false := by
      simpa using hempty
    have hspec := retryLoop_spec now respond st.webhooks
      (st.deliveries.filter (eligibleRetry maxR)) st rfl hlt hsnap htodonodup hwf.2
    have hrfd1 : (retryFailedDeliveries now respond st maxR).1 =
        (retryLoop now respond (st.deliveries.filter (eligibleRetry maxR)) st).1 := by
      simp only [retryFailedDeliveries]
      rw [hne]
      rfl
    have hrfd2 : (retryFailedDeliveries now respond st maxR).2 =
        ({ success := true,
           retried := (st.deliveries.filter (eligibleRetry maxR)).length,
           successful := (retryLoop now respond (st.deliveries.filter (eligibleRetry maxR)) st).2.1,
           failed := (retryLoop now respond (st.deliveries.filter (eligibleRetry maxR)) st).2.2 } :
          RetryReport) := by
      simp only [retryFailedDeliveries]
      rw [hne]
      rfl
    have hrowAll : ∀ row ∈ st.deliveries,
        rowById (retryFailedDeliveries now respond st maxR).1 row.id =
          some (retryUpd now respond st.webhooks
            (st.deliveries.filter (eligibleRetry maxR)) row) := by
      intro row hrow
      rw [hrfd1]
      unfold rowById
      rw [hspec.1, List.find?_append,
         find?_id_map _ _ (retryUpd_id now respond st.webhooks _) row.id,
         find?_id_of_mem_nodup st.deliveries row hrow hwf.1]
      rfl
    refine ⟨?_, ?_, ?_, ?_, ?_, ?_, ?_, ?_⟩
    · rw [hrfd2]
    · rw [hrfd2]
      exact hspec.2.2.1
    · rw [hrfd2]
      exact hspec.2.2.2
    · intro row hrow he
      rw [hrowAll row hrow,
         retryUpd_not_mem now respond st.webhooks _ row (hnotintodo row hrow he)]
    · intro row hrow he hdec
      rw [hrowAll row hrow,
         retryUpd_find_some now respond st.webhooks _ row row
           (find?_id_of_mem_nodup _ row (hmemtodo row hrow he) htodonodup), hdec]
    · intro row hrow he hdec
      rw [hrowAll row hrow,
         retryUpd_find_some now respond st.webhooks _ row row
           (find?_id_of_mem_nodup _ row (hmemtodo row hrow he) htodonodup), hdec]
      simp [bumpRetry]
    · intro row hrow he hdec
      rw [hrowAll row hrow,
         retryUpd_find_some now respond st.webhooks _ row row
           (find?_id_of_mem_nodup _ row (hmemtodo row hrow he) htodonodup), hdec]
      simp [bumpRetry]
    · rw [hrfd1, hspec.1]
      simp [retryNewRows_length]

/-- C4 (amended): `retryFailedDeliveries` selects exactly the rows with no
status code and `retry_count < maxRetries`; a selected row whose webhook is
gone or inactive is skipped (left unchanged); a re-attempted row is mutated
in place — `retry_count` goes up by one, and `status_code` is set to the
literal 200 exactly on success, staying absent on failure — *and*, unlike
the claim's wording, the re-attempt also appends a fresh delivery row
through `deliver_to_webhook`, one per re-attempt, so retry outcomes are not
recorded solely by in-place mutation. -/
theorem c4_retry_bookkeeping :
    ∀ (now : Int) (respond : String → PyJson → HttpOutcome) (st : WebhookDB)
      (maxRetries : Nat),
      wfDB st →
      (retryFailedDeliveries now respond st maxRetries).2.retried =
        (st.deliveries.filter (eligibleRetry maxRetries)).length ∧
      (retryFailedDeliveries now respond st maxRetries).2.successful =
        (st.deliveries.filter (eligibleRetry maxRetries)).countP
          (fun d => retryDecision now respond st.webhooks d == some true) ∧
      (retryFailedDeliveries now respond st maxRetries).2.failed =
        (st.deliveries.filter (eligibleRetry maxRetries)).countP
          (fun d => retryDecision now respond st.webhooks d == some false) ∧
      (∀ row ∈ st.deliveries, eligibleRetry maxRetries row = false →
        rowById (retryFailedDeliveries now respond st maxRetries).1 row.id =
          some row) ∧
      (∀ row ∈ st.deliveries, eligibleRetry maxRetries row = true →
        retryDecision now respond st.webhooks row = none →
        rowById (retryFailedDeliveries now respond st maxRetries).1 row.id =
          some row) ∧
      (∀ row ∈ st.deliveries, eligibleRetry maxRetries row = true →
        retryDecision now respond st.webhooks row = some true →
        rowById (retryFailedDeliveries now respond st maxRetries).1 row.id =
          some { row with retry_count := row.retry_count + 1,
                          status_code := some 200 }) ∧
      (∀ row ∈ st.deliveries, eligibleRetry maxRetries row = true →
        retryDecision now respond st.webhooks row = some false →
        rowById (retryFailedDeliveries now respond st maxRetries).1 row.id =
          some { row with retry_count := row.retry_count + 1 }) ∧
      (retryFailedDeliveries now respond st maxRetries).1.deliveries.length =
        st.deliveries.length +
          (st.deliveries.filter (eligibleRetry maxRetries)).countP
            (fun d => (retryDecision now respond st.webhooks d).isSome) :=
  retryFailedDeliveries_spec

/-- The state C4's counterexample and witness run on: one active webhook
and one transport-failed delivery awaiting retry. -/
def c4st : WebhookDB :=
  { webhooks := [{ id := 1, url := "https://t.example/hook" }],
    deliveries := [{ id := 0, webhook_id := 1, event := "ev",
                     payload := .obj [("event", .str "ev"), ("data", .obj [])],
                     status_code := none, response_body := "timeout",
                     retry_count := 0 }],
    nextDeliveryId := 1 }

/-- C4 counterexample: one failed delivery, a succeeding retry — the table
afterwards holds *two* rows, not one: the retry outcome is recorded both by
mutating the original row and by the fresh row `deliver_to_webhook`
appends, contradicting "rather than appending a new row". -/
theorem c4_counterexample :
    c4st.deliveries.length = 1 ∧
    (retryFailedDeliveries 0 (fun _ _ => .ok 200 "ok") c4st 3).1.deliveries.length
      = 2 := by decide

/-- Witness for C4 (amended) on `c4st`: the original row is mutated in
place to `retry_count = 1`, `status_code = 200`. -/
theorem c4_retry_bookkeeping_witness :
    rowById (retryFailedDeliveries 0 (fun _ _ => .ok 200 "ok") c4st 3).1 0 =
      some { id := 0, webhook_id := 1, event := "ev",
             payload := .obj [("event", .str "ev"), ("data", .obj [])],
             status_code := some 200, response_body := "timeout",
             retry_count := 1 } :=
  (c4_retry_bookkeeping 0 (fun _ _ => .ok 200 "ok") c4st 3
      ⟨by decide, by decide⟩).2.2.2.2.2.1
    { id := 0, webhook_id := 1, event := "ev",
      payload := .obj [("event", .str "ev"), ("data", .obj [])],
      status_code := none, response_body := "timeout", retry_count := 0 }
    (by simp [c4st]) (by decide) (by rfl)

/-- The state C9's witness runs on. -/
def c9st : WebhookDB :=
  { webhooks := [{ id := 5, url := "https://u.example/hook" }],
    deliveries := [{ id := 2, webhook_id := 5, event := "deploy",
                     payload := .obj [("event", .str "deploy"),
                                      ("data", .obj [("p", .int 1)])],
                     status_code := none, response_body := "connection_error",
                     retry_count := 1 }],
    nextDeliveryId := 3 }

/-- C9: when a retried delivery's re-attempt receives any 2xx status, the
original row's `status_code` is set to the literal constant 200 — even when
the actual code differed (e.g. 204) — while the re-attempt itself appends a
fresh `WebhookDelivery` row (carrying the actual code) through
`deliver_to_webhook`, so one successful retry leaves two persisted rows for
the same webhook and event. -/
theorem c9_retry_success_two_rows :
    ∀ (now : Int) (respond : String → PyJson → HttpOutcome) (st : WebhookDB)
      (maxRetries : Nat) (d : WebhookDelivery) (wh : Webhook) (c : Nat)
      (text : String),
      wfDB st →
      d ∈ st.deliveries →
      eligibleRetry maxRetries d = true →
      st.webhooks.find? (fun w => w.id = d.webhook_id) = some wh →
      wh.is_active = true →
      respond wh.url (requestData now d.event (payloadData d.payload)) =
        .ok c text →
      200 ≤ c → c < 300 →
      rowById (retryFailedDeliveries now respond st maxRetries).1 d.id =
        some { d with retry_count := d.retry_count + 1,
                      status_code := some 200 } ∧
      st.deliveries.length + 1 ≤
        (retryFailedDeliveries now respond st maxRetries).1.deliveries.length ∧
      (∃ nid, ∃ fresh ∈ (retryFailedDeliveries now respond st maxRetries).1.deliveries,
        fresh = deliveredRow now respond wh d.event (payloadData d.payload) nid ∧
        fresh.status_code = some c ∧
        fresh.webhook_id = d.webhook_id ∧
        fresh.event = d.event ∧ fresh.id = nid) := by
  intro now respond st maxR d wh c text hwf hmem helig hfind hact hresp hc1 hc2
  have hok : is2xx c = true := by
    simp only [is2xx, decide_eq_true_eq]
    exact ⟨hc1, hc2⟩
  have hdec : retryDecision now respond st.webhooks d = some true := by
    simp [retryDecision, hfind, hact, deliverSuccess, hresp, hok]
  have hc4 := retryFailedDeliveries_spec now respond st maxR hwf
  have hwid : wh.id = d.webhook_id := by
    have := List.find?_some hfind
    simpa using this
  refine ⟨hc4.2.2.2.2.2.1 d hmem helig hdec, ?_, ?_⟩
  · rw [hc4.2.2.2.2.2.2.2]
    have hpos : 0 < (st.deliveries.filter (eligibleRetry maxR)).countP
        (fun x => (retryDecision now respond st.webhooks x).isSome) :=
      List.countP_pos_iff.mpr ⟨d, List.mem_filter.mpr ⟨hmem, helig⟩, by simp [hdec]⟩
    omega
  · have hmemtodo : d ∈ st.deliveries.filter (eligibleRetry maxR) :=
      List.mem_filter.mpr ⟨hmem, helig⟩
    have hne : (st.deliveries.filter (eligibleRetry maxR)).isEmpty = false := by
      cases hfl : st.deliveries.filter (eligibleRetry maxR) with
      | nil => rw [hfl] at hmemtodo; cases hmemtodo
      | cons a l => simp [hfl]
    have hlt : ∀ x ∈ st.deliveries.filter (eligibleRetry maxR), x.id < st.nextDeliveryId :=
      fun x hx => hwf.2 x (List.mem_of_mem_filter hx)
    have hsnap : ∀ x ∈ st.deliveries.filter (eligibleRetry maxR),
        ∀ row ∈ st.deliveries, row.id = x.id → row = x :=
      fun x hx row hrow hid =>
        List.inj_on_of_nodup_map hwf.1 hrow (List.mem_of_mem_filter hx) hid
    have htodonodup : ((st.deliveries.filter (eligibleRetry maxR)).map
        (fun x => x.id)).Nodup :=
      List.Nodup.sublist (List.Sublist.map _ (List.filter_sublist _)) hwf.1
    have hspec := retryLoop_spec now respond st.webhooks
      (st.deliveries.filter (eligibleRetry maxR)) st rfl hlt hsnap htodonodup hwf.2
    have hrfd1 : (retryFailedDeliveries now respond st maxR).1 =
        (retryLoop now respond (st.deliveries.filter (eligibleRetry maxR)) st).1 := by
      simp only [retryFailedDeliveries]
      rw [hne]
      rfl
    obtain ⟨nid, hmemnew⟩ := retryNewRows_mem now respond st.webhooks
      (st.deliveries.filter (eligibleRetry maxR)) st.nextDeliveryId d hmemtodo
      (by simp [hdec])
    have hrowform : retryNewRow now respond st.webhooks d nid =
        deliveredRow now respond wh d.event (payloadData d.payload) nid := by
      unfold retryNewRow
      rw [hfind]
    refine ⟨nid, retryNewRow now respond st.webhooks d nid, ?_, hrowform, ?_, ?_, ?_, ?_⟩
    · rw [hrfd1, hspec.1]
      exact List.mem_append.mpr (Or.inr hmemnew)
    · rw [hrowform]
      unfold deliveredRow
      rw [hresp]
    · rw [hrowform]
      unfold deliveredRow
      rw [hresp]
      exact hwid
    · rw [hrowform]
      unfold deliveredRow
      rw [hresp]
    · rw [hrowform]
      unfold deliveredRow
      rw [hresp]

/-- Witness for C9 on `c9st` with an actual response code of 204: the
original row records the literal 200, the fresh row records 204. -/
theorem c9_retry_success_two_rows_witness :
    rowById (retryFailedDeliveries 7 (fun _ _ => .ok 204 "") c9st 3).1 2 =
      some { id := 2, webhook_id := 5, event := "deploy",
             payload := .obj [("event", .str "deploy"),
                              ("data", .obj [("p", .int 1)])],
             status_code := some 200, response_body := "connection_error",
             retry_count := 2 } ∧
    c9st.deliveries.length + 1 ≤
      (retryFailedDeliveries 7 (fun _ _ => .ok 204 "") c9st 3).1.deliveries.length :=
  have h := c9_retry_success_two_rows 7 (fun _ _ => .ok 204 "") c9st 3
    { id := 2, webhook_id := 5, event := "deploy",
      payload := .obj [("event", .str "deploy"), ("data", .obj [("p", .int 1)])],
      status_code := none, response_body := "connection_error", retry_count := 1 }
    { id := 5, url := "https://u.example/hook" } 204 ""
    ⟨by decide, by decide⟩ (by simp [c9st]) (by decide) (by rfl) (by decide)
    (by rfl) (by decide) (by decide)
  ⟨h.1, h.2.1⟩

end PakWeb
